import Mathlib

/-!
# Verification of the appstream tree-to-model conversion layer

A shallow embedding, in Lean 4, of the `xmltree`-based conversion layer of the
appstream Rust crate (`src/xml.rs`, `src/builders.rs`, `src/enums.rs`,
`src/content_rating.rs`, `src/translatable_string.rs`, `src/error.rs`), together
with theorems settling the specification claims about it.

Modelling conventions:
* the generic XML tree is the `Element`/`XMLNode` pair mirroring
  `xmltree::Element` / `xmltree::XMLNode` (only `Element` and `Text` nodes are
  modelled; the conversion layer treats every other node kind as absent);
* fallible Rust code returning `Result<_, ParseError>` becomes
  `Except Failure _`, where `Failure` distinguishes structured `ParseError`
  values from Rust panics (`unwrap`/`expect` on empty options), so that
  "recoverable error" versus "process abort" is visible in the model;
* machine integers are `Nat` with explicit bounds (`u32`, `u64` parse
  failures on overflow); dates are seconds since the Unix epoch as `Int`;
* the external `url` crate and `chrono` string parsers are modelled at their
  boundary by simple executable recognizers, faithful to the formats the
  conversion layer feeds them (`%s` and `%Y-%m-%d`).
-/

namespace Appstream

/-! ## The generic XML tree (input boundary, mirroring `xmltree`) -/

mutual

/-- Mirror of `xmltree::Element`: a tag name, attributes, child nodes. -/
inductive Element : Type where
  | mk (name : String) (attributes : List (String × String))
      (children : List XMLNode)

/-- Mirror of `xmltree::XMLNode`, restricted to the node kinds the conversion
layer distinguishes: child elements and text runs. -/
inductive XMLNode : Type where
  | element (e : Element)
  | text (s : String)

end

/-- The tag name of an element. -/
def Element.name : Element → String
  | .mk n _ _ => n

/-- The attribute list of an element (`xmltree` attribute map). -/
def Element.attributes : Element → List (String × String)
  | .mk _ a _ => a

/-- The child nodes of an element, in document order. -/
def Element.children : Element → List XMLNode
  | .mk _ _ c => c

/-- `e.attributes.get(k)`: first (unique) binding of attribute `k`. -/
def Element.getAttr (e : Element) (k : String) : Option String :=
  (e.attributes.find? (fun p => p.1 == k)).map (·.2)

/-- `xmltree::XMLNode::as_element`. -/
def XMLNode.asElement : XMLNode → Option Element
  | .element e => some e
  | .text _ => none

/-- `xmltree::Element::get_text`: the concatenation of the text children, or
`None` when the element has no text children at all. -/
def Element.getText (e : Element) : Option String :=
  let ts := e.children.filterMap fun n =>
    match n with
    | .text t => some t
    | _ => none
  if ts.isEmpty then none else some (String.join ts)

/-- `xmltree::Element::get_child(name)`: the first child element so named. -/
def Element.getChild (e : Element) (n : String) : Option Element :=
  e.children.findSome? fun c =>
    match c with
    | .element el => if el.name == n then some el else none
    | .text _ => none

/-! ## Error model (`src/error.rs`) and panic tracking -/

/-- Mirror of `error::ParseError` (payloads of the external-library variants
are not inspected by the conversion layer and are dropped). -/
inductive ParseError : Type where
  | xmlParserError
  | urlParseError
  | ioError
  | invalidTag (tag : String)
  | missingTag (tag : String)
  | missingAttribute (attr tag : String)
  | missingValue (tag : String)
  | invalidValue (value attr tag : String)
  | other (tag reason : String)
deriving DecidableEq, Repr

/-- Outcome channel of the embedded Rust code: a structured `ParseError`
(returned in a `Result`), or a panic (`unwrap`/`expect` failure), which in Rust
aborts instead of returning. -/
inductive Failure : Type where
  | err (e : ParseError)
  | panic (msg : String)
deriving DecidableEq, Repr

/-- Conversion monad: `Result<α, ParseError>` with panics made explicit. -/
abbrev Conv (α : Type) : Type := Except Failure α

/-- `Option::unwrap`: panics on `None`. -/
def unwrapOp {α : Type} (o : Option α) : Conv α :=
  match o with
  | some a => .ok a
  | none => .error (.panic "called Option::unwrap on a None value")

/-- `Option::expect(msg)`: panics with `msg` on `None`. -/
def expectOp {α : Type} (o : Option α) (msg : String) : Conv α :=
  match o with
  | some a => .ok a
  | none => .error (.panic msg)

/-- `Option::ok_or_else(err)?`: the value, or the given structured error. -/
def okOr {α : Type} (o : Option α) (err : ParseError) : Conv α :=
  match o with
  | some a => pure a
  | none => throw (.err err)

/-! ## Scalar converters (numbers, URLs, dates) -/

/-- Decimal digit characters to their value (`none` on empty or non-digit
input). Character-list based so that it reduces inside the kernel. -/
def parseDigitsList (cs : List Char) : Option Nat :=
  if cs.isEmpty || cs.any (fun c => !c.isDigit) then none
  else some (cs.foldl (fun acc c => acc * 10 + (c.toNat - 48)) 0)

/-- Decimal digit string to its value. -/
def parseDigits (s : String) : Option Nat :=
  parseDigitsList s.data

/-- Strip one leading `+` sign (Rust's unsigned-integer grammar). -/
def stripPlus (cs : List Char) : List Char :=
  match cs with
  | '+' :: rest => rest
  | _ => cs

/-- Rust `str::parse::<u32>`: optional leading `+`, digits, range check. -/
def parseU32 (s : String) : Option Nat :=
  match parseDigitsList (stripPlus s.data) with
  | some v => if v < 2 ^ 32 then some v else none
  | none => none

/-- Rust `str::parse::<u64>`: optional leading `+`, digits, range check. -/
def parseU64 (s : String) : Option Nat :=
  match parseDigitsList (stripPlus s.data) with
  | some v => if v < 2 ^ 64 then some v else none
  | none => none

/-- Boundary model of `url::Url` (the conversion layer only ever stores parsed
URLs, never inspects them). -/
structure Url : Type where
  raw : String
deriving DecidableEq, Repr

/-- Boundary model of `url::Url::parse`: requires a nonempty alphabetic scheme
followed by `://` and a nonempty remainder. -/
def urlParseOk (s : String) : Bool :=
  match s.splitOn "://" with
  | scheme :: rest :: _ =>
      !scheme.isEmpty && scheme.all (fun c => c.isAlpha) && !rest.isEmpty
  | _ => false

/-- `Url::parse` lifted into the conversion monad (its error converts into
`ParseError::UrlParseError` via `#[from]`). -/
def Url.parse (s : String) : Conv Url :=
  if urlParseOk s then .ok ⟨s⟩ else .error (.err .urlParseError)

/-- Seconds since the Unix epoch, UTC (model of `chrono::DateTime<Utc>`). -/
abbrev DateTime : Type := Int

/-- Boundary model of `chrono`'s `%s` format: an optionally negated decimal
count of seconds since the Unix epoch. -/
def parseUnixTimestamp (s : String) : Option Int :=
  match s.data with
  | '-' :: rest => (parseDigitsList rest).map fun v => -(v : Int)
  | cs => (parseDigitsList cs).map fun v => (v : Int)

/-- Days in a month of the proleptic Gregorian calendar. -/
def daysInMonth (y m : Nat) : Nat :=
  if m = 2 then
    if y % 4 = 0 && (y % 100 ≠ 0 || y % 400 = 0) then 29 else 28
  else if m = 4 || m = 6 || m = 9 || m = 11 then 30
  else 31

/-- Days from the civil epoch 1970-01-01 to year `y`, month `m`, day `d`
(standard civil-calendar day count, years `0..=9999`). -/
def daysFromCivil (y m d : Nat) : Int :=
  let y' : Int := if m ≤ 2 then (y : Int) - 1 else (y : Int)
  let era : Int := (if y' ≥ 0 then y' else y' - 399) / 400
  let yoe : Int := y' - era * 400
  let mp : Int := if m > 2 then (m : Int) - 3 else (m : Int) + 9
  let doy : Int := (153 * mp + 2) / 5 + (d : Int) - 1
  let doe : Int := yoe * 365 + yoe / 4 - yoe / 100 + doy
  era * 146097 + doe - 719468

/-- Split a character list on a separator character. -/
def splitOnChar (sep : Char) : List Char → List (List Char)
  | [] => [[]]
  | c :: rest =>
    if c = sep then [] :: splitOnChar sep rest
    else
      match splitOnChar sep rest with
      | g :: gs => (c :: g) :: gs
      | [] => [[c]]

/-- Boundary model of `chrono`'s `NaiveDate::parse_from_str(_, "%Y-%m-%d")`:
a `yyyy-mm-dd` calendar date, validated, as days since the Unix epoch. -/
def parseNaiveDate (s : String) : Option Int :=
  match splitOnChar '-' s.data with
  | [ys, ms, ds] =>
      match parseDigitsList ys, parseDigitsList ms, parseDigitsList ds with
      | some y, some m, some d =>
          if ys.length ≤ 4 && ms.length ≤ 2 && ds.length ≤ 2
              && 1 ≤ m && m ≤ 12 && 1 ≤ d && d ≤ daysInMonth y m then
            some (daysFromCivil y m d)
          else none
      | _, _, _ => none
  | _ => none

/-- `xml.rs::deserialize_date`: first try the input as a Unix timestamp
(`%s`); on failure, try it as an ISO calendar date (`%Y-%m-%d`) taken at
midnight UTC. `none` models `chrono::ParseError`. -/
def deserialize_date (date : String) : Option DateTime :=
  match parseUnixTimestamp date with
  | some t => some t
  | none => (parseNaiveDate date).map fun days => days * 86400

/-! ## Closed vocabularies (`src/enums.rs`) -/

/-- Mirror of `app_id::AppId`: an opaque reverse-DNS-style identifier. -/
structure AppId : Type where
  val : String
deriving DecidableEq, Repr

/-- Mirror of `license::License`: an opaque SPDX string. -/
structure License : Type where
  val : String
deriving DecidableEq, Repr

/-- Mirror of `enums::ArtifactKind`. -/
inductive ArtifactKind : Type where
  | Source
  | Binary
deriving DecidableEq, Repr

/-- `ArtifactKind::from_str` (strum, lowercase). -/
def ArtifactKind.from_str (s : String) : Option ArtifactKind :=
  match s with
  | "source" => some .Source
  | "binary" => some .Binary
  | _ => none

/-- Mirror of `enums::FirmwareKind`. -/
inductive FirmwareKind : Type where
  | Flashed
  | Runtime
deriving DecidableEq, Repr

/-- `FirmwareKind::from_str` (strum, lowercase). -/
def FirmwareKind.from_str (s : String) : Option FirmwareKind :=
  match s with
  | "flashed" => some .Flashed
  | "runtime" => some .Runtime
  | _ => none

/-- Mirror of `enums::ImageKind`. -/
inductive ImageKind : Type where
  | Source
  | Thumbnail
deriving DecidableEq, Repr

/-- `ImageKind::from_str` (strum, lowercase). -/
def ImageKind.from_str (s : String) : Option ImageKind :=
  match s with
  | "source" => some .Source
  | "thumbnail" => some .Thumbnail
  | _ => none

/-- Mirror of `enums::ReleaseKind`. -/
inductive ReleaseKind : Type where
  | Stable
  | Development
deriving DecidableEq, Repr

/-- `ReleaseKind::from_str` (strum, lowercase). -/
def ReleaseKind.from_str (s : String) : Option ReleaseKind :=
  match s with
  | "stable" => some .Stable
  | "development" => some .Development
  | _ => none

/-- Mirror of `enums::ReleaseUrgency`. -/
inductive ReleaseUrgency : Type where
  | Low
  | Medium
  | High
  | Critical
deriving DecidableEq, Repr

/-- `ReleaseUrgency::from_str` (strum, lowercase). -/
def ReleaseUrgency.from_str (s : String) : Option ReleaseUrgency :=
  match s with
  | "low" => some .Low
  | "medium" => some .Medium
  | "high" => some .High
  | "critical" => some .Critical
  | _ => none

/-- Mirror of `enums::ContentState` (OARS attribute intensity). -/
inductive ContentState : Type where
  | NoState
  | Mild
  | Moderate
  | Intense
deriving DecidableEq, Repr

/-- `ContentState::from_str` (strum, lowercase; the Rust variant `None`
serializes as `"none"`). -/
def ContentState.from_str (s : String) : Option ContentState :=
  match s with
  | "none" => some .NoState
  | "mild" => some .Mild
  | "moderate" => some .Moderate
  | "intense" => some .Intense
  | _ => none

/-- Mirror of `enums::ComponentKind`. -/
inductive ComponentKind : Type where
  | Runtime
  | ConsoleApplication
  | DesktopApplication
  | WebApplication
  | InputMethod
  | OS
  | Theme
  | Firmware
  | Addon
  | Font
  | Generic
  | IconTheme
  | Localization
  | Driver
  | Codec
deriving DecidableEq, Repr

/-- `Default for ComponentKind`. -/
def ComponentKind.default : ComponentKind := .Generic

/-- The hand-written `FromStr for ComponentKind` in `src/enums.rs` (the error
it constructs is rebuilt at the call sites, so `Option` suffices here). -/
def ComponentKind.from_str (c : String) : Option ComponentKind :=
  match c with
  | "runtime" => some .Runtime
  | "console" | "console-application" => some .ConsoleApplication
  | "desktop" | "desktop-application" => some .DesktopApplication
  | "webapp" => some .WebApplication
  | "inputmethod" => some .InputMethod
  | "operating-system" => some .OS
  | "theme" => some .Theme
  | "firmware" => some .Firmware
  | "addon" => some .Addon
  | "font" => some .Font
  | "icontheme" | "icon-theme" => some .IconTheme
  | "driver" => some .Driver
  | "codec" => some .Codec
  | "localization" => some .Localization
  | "" | "generic" => some ComponentKind.default
  | _ => none

/-- Mirror of `enums::Category` (strum `PascalCase` vocabulary with a
`#[strum(default)]` catch-all that preserves the original string). -/
inductive Category : Type where
  | AudioVideo
  | Audio
  | Video
  | Development
  | Education
  | Game
  | Graphics
  | Network
  | Office
  | Science
  | Settings
  | System
  | Utility
  | Building
  | Debugger
  | IDE
  | GUIDesigner
  | Profiling
  | RevisionControl
  | Translation
  | Calendar
  | ContactManagement
  | Database
  | Dictionary
  | Chart
  | Email
  | Finance
  | FlowChart
  | PDA
  | ProjectManagement
  | Presentation
  | Spreadsheet
  | WordProcessor
  | TwoDGraphics
  | VectorGraphics
  | RasterGraphics
  | ThreeDGraphics
  | Scanning
  | OCR
  | Photography
  | Publishing
  | Viewer
  | TextTools
  | DesktopSettings
  | HardwareSettings
  | Printing
  | PackageManager
  | Dialup
  | InstantMessaging
  | Chat
  | IRCClient
  | Feed
  | FileTransfer
  | HamRadio
  | News
  | P2P
  | RemoteAccess
  | Telephony
  | TelephonyTools
  | VideoConference
  | WebBrowser
  | WebDevelopment
  | Midi
  | Mixer
  | Sequencer
  | Tuner
  | TV
  | AudioVideoEditing
  | Player
  | Recorder
  | DiscBurning
  | ActionGame
  | AdventureGame
  | ArcadeGame
  | BoardGame
  | BlocksGame
  | CardGame
  | KidsGame
  | LogicGame
  | RolePlaying
  | Shooter
  | Simulation
  | SportsGame
  | StrategyGame
  | Art
  | Construction
  | Music
  | Languages
  | ArtificialIntelligence
  | Astronomy
  | Biology
  | Chemistry
  | ComputerScience
  | DataVisualization
  | Economy
  | Electricity
  | Geography
  | Geology
  | Geoscience
  | History
  | Humanities
  | ImageProcessing
  | Literature
  | Maps
  | Math
  | NumericalAnalysis
  | MedicalSoftware
  | Physics
  | Robotics
  | Spirituality
  | Sports
  | ParallelComputing
  | Amusement
  | Archiving
  | Compression
  | Electronics
  | Emulator
  | Engineering
  | FileTools
  | FileManager
  | TerminalEmulator
  | Filesystem
  | Monitor
  | Security
  | Accessibility
  | Calculator
  | Clock
  | TextEditor
  | Documentation
  | Adult
  | Core
  | KDE
  | GNOME
  | XFCE
  | GTK
  | Qt
  | Motif
  | Java
  | ConsoleOnly
  | Screensaver
  | TrayIcon
  | Applet
  | Shell
  | Unknown (s : String)

/-- `Category::from_str` (strum `EnumString`, `PascalCase`, default
catch-all): total, never fails. -/
def Category.from_str (s : String) : Category :=
  match s with
  | "AudioVideo" => .AudioVideo
  | "Audio" => .Audio
  | "Video" => .Video
  | "Development" => .Development
  | "Education" => .Education
  | "Game" => .Game
  | "Graphics" => .Graphics
  | "Network" => .Network
  | "Office" => .Office
  | "Science" => .Science
  | "Settings" => .Settings
  | "System" => .System
  | "Utility" => .Utility
  | "Building" => .Building
  | "Debugger" => .Debugger
  | "IDE" => .IDE
  | "GUIDesigner" => .GUIDesigner
  | "Profiling" => .Profiling
  | "RevisionControl" => .RevisionControl
  | "Translation" => .Translation
  | "Calendar" => .Calendar
  | "ContactManagement" => .ContactManagement
  | "Database" => .Database
  | "Dictionary" => .Dictionary
  | "Chart" => .Chart
  | "Email" => .Email
  | "Finance" => .Finance
  | "FlowChart" => .FlowChart
  | "PDA" => .PDA
  | "ProjectManagement" => .ProjectManagement
  | "Presentation" => .Presentation
  | "Spreadsheet" => .Spreadsheet
  | "WordProcessor" => .WordProcessor
  | "TwoDGraphics" => .TwoDGraphics
  | "VectorGraphics" => .VectorGraphics
  | "RasterGraphics" => .RasterGraphics
  | "ThreeDGraphics" => .ThreeDGraphics
  | "Scanning" => .Scanning
  | "OCR" => .OCR
  | "Photography" => .Photography
  | "Publishing" => .Publishing
  | "Viewer" => .Viewer
  | "TextTools" => .TextTools
  | "DesktopSettings" => .DesktopSettings
  | "HardwareSettings" => .HardwareSettings
  | "Printing" => .Printing
  | "PackageManager" => .PackageManager
  | "Dialup" => .Dialup
  | "InstantMessaging" => .InstantMessaging
  | "Chat" => .Chat
  | "IRCClient" => .IRCClient
  | "Feed" => .Feed
  | "FileTransfer" => .FileTransfer
  | "HamRadio" => .HamRadio
  | "News" => .News
  | "P2P" => .P2P
  | "RemoteAccess" => .RemoteAccess
  | "Telephony" => .Telephony
  | "TelephonyTools" => .TelephonyTools
  | "VideoConference" => .VideoConference
  | "WebBrowser" => .WebBrowser
  | "WebDevelopment" => .WebDevelopment
  | "Midi" => .Midi
  | "Mixer" => .Mixer
  | "Sequencer" => .Sequencer
  | "Tuner" => .Tuner
  | "TV" => .TV
  | "AudioVideoEditing" => .AudioVideoEditing
  | "Player" => .Player
  | "Recorder" => .Recorder
  | "DiscBurning" => .DiscBurning
  | "ActionGame" => .ActionGame
  | "AdventureGame" => .AdventureGame
  | "ArcadeGame" => .ArcadeGame
  | "BoardGame" => .BoardGame
  | "BlocksGame" => .BlocksGame
  | "CardGame" => .CardGame
  | "KidsGame" => .KidsGame
  | "LogicGame" => .LogicGame
  | "RolePlaying" => .RolePlaying
  | "Shooter" => .Shooter
  | "Simulation" => .Simulation
  | "SportsGame" => .SportsGame
  | "StrategyGame" => .StrategyGame
  | "Art" => .Art
  | "Construction" => .Construction
  | "Music" => .Music
  | "Languages" => .Languages
  | "ArtificialIntelligence" => .ArtificialIntelligence
  | "Astronomy" => .Astronomy
  | "Biology" => .Biology
  | "Chemistry" => .Chemistry
  | "ComputerScience" => .ComputerScience
  | "DataVisualization" => .DataVisualization
  | "Economy" => .Economy
  | "Electricity" => .Electricity
  | "Geography" => .Geography
  | "Geology" => .Geology
  | "Geoscience" => .Geoscience
  | "History" => .History
  | "Humanities" => .Humanities
  | "ImageProcessing" => .ImageProcessing
  | "Literature" => .Literature
  | "Maps" => .Maps
  | "Math" => .Math
  | "NumericalAnalysis" => .NumericalAnalysis
  | "MedicalSoftware" => .MedicalSoftware
  | "Physics" => .Physics
  | "Robotics" => .Robotics
  | "Spirituality" => .Spirituality
  | "Sports" => .Sports
  | "ParallelComputing" => .ParallelComputing
  | "Amusement" => .Amusement
  | "Archiving" => .Archiving
  | "Compression" => .Compression
  | "Electronics" => .Electronics
  | "Emulator" => .Emulator
  | "Engineering" => .Engineering
  | "FileTools" => .FileTools
  | "FileManager" => .FileManager
  | "TerminalEmulator" => .TerminalEmulator
  | "Filesystem" => .Filesystem
  | "Monitor" => .Monitor
  | "Security" => .Security
  | "Accessibility" => .Accessibility
  | "Calculator" => .Calculator
  | "Clock" => .Clock
  | "TextEditor" => .TextEditor
  | "Documentation" => .Documentation
  | "Adult" => .Adult
  | "Core" => .Core
  | "KDE" => .KDE
  | "GNOME" => .GNOME
  | "XFCE" => .XFCE
  | "GTK" => .GTK
  | "Qt" => .Qt
  | "Motif" => .Motif
  | "Java" => .Java
  | "ConsoleOnly" => .ConsoleOnly
  | "Screensaver" => .Screensaver
  | "TrayIcon" => .TrayIcon
  | "Applet" => .Applet
  | "Shell" => .Shell
  | _ => .Unknown s

/-- Mirror of `enums::Kudo` (strum `PascalCase` with default catch-all). -/
inductive Kudo : Type where
  | AppMenu
  | HiDpiIcon
  | HighContrast
  | ModernToolkit
  | Notifications
  | SearchProvider
  | UserDocs
  | Unknown (s : String)
deriving DecidableEq, Repr

/-- `Kudo::from_str` (strum `EnumString`, `PascalCase`, default catch-all):
total, never fails. -/
def Kudo.from_str (s : String) : Kudo :=
  match s with
  | "AppMenu" => .AppMenu
  | "HiDpiIcon" => .HiDpiIcon
  | "HighContrast" => .HighContrast
  | "ModernToolkit" => .ModernToolkit
  | "Notifications" => .Notifications
  | "SearchProvider" => .SearchProvider
  | "UserDocs" => .UserDocs
  | _ => .Unknown s

/-- Mirror of `enums::Checksum`. -/
inductive Checksum : Type where
  | Sha1 (v : String)
  | Sha256 (v : String)
  | Blake2b (v : String)
  | Blake2s (v : String)
deriving DecidableEq, Repr

/-- Mirror of `enums::Size` (byte counts fit in `u64`). -/
inductive Size : Type where
  | Download (bytes : Nat)
  | Installed (bytes : Nat)
deriving DecidableEq, Repr

/-- Mirror of `enums::Bundle`. -/
inductive Bundle : Type where
  | Limba (v : String)
  | Flatpak (runtime : Option String) (sdk : String) (reference : String)
  | AppImage (v : String)
  | Snap (v : String)
  | Tarball (v : String)
deriving DecidableEq, Repr

/-- Mirror of `enums::Icon` (`PathBuf` payloads are opaque strings here). -/
inductive Icon : Type where
  | Stock (v : String)
  | Cached (path : String) (width : Option Nat) (height : Option Nat)
  | Remote (url : Url) (width : Option Nat) (height : Option Nat)
  | Local (path : String) (width : Option Nat) (height : Option Nat)
deriving DecidableEq, Repr

/-- Mirror of `enums::Launchable`. -/
inductive Launchable : Type where
  | DesktopId (v : String)
  | Service (v : String)
  | Url (u : Url)
  | CockpitManifest (v : String)
  | Unknown (v : String)
deriving DecidableEq, Repr

/-- Mirror of `enums::ProjectUrl`. -/
inductive ProjectUrl : Type where
  | Donation (u : Url)
  | Translate (u : Url)
  | Homepage (u : Url)
  | BugTracker (u : Url)
  | Help (u : Url)
  | Faq (u : Url)
  | Contact (u : Url)
  | Unknown (u : Url)
deriving DecidableEq, Repr

/-- Mirror of `enums::Provide`. -/
inductive Provide : Type where
  | Library (path : String)
  | Binary (v : String)
  | Font (v : String)
  | Modalias (v : String)
  | Firmware (kind : FirmwareKind) (item : String)
  | Python2 (v : String)
  | Python3 (v : String)
  | DBus (v : String)
  | Id (id : AppId)
  | Codec (v : String)
deriving DecidableEq, Repr

/-- Mirror of `enums::Translation` (translation domains). Note the vocabulary
does carry a hidden `Unknown` member, but the converter never produces it. -/
inductive Translation : Type where
  | Gettext (v : String)
  | Qt (v : String)
  | Unknown
deriving DecidableEq, Repr

/-! ## Content rating (`src/content_rating.rs` and `src/enums.rs`) -/

/-- Mirror of `ContentRatingVersion` (declared identically in both
`src/content_rating.rs` and `src/enums.rs`). -/
inductive ContentRatingVersion : Type where
  | Oars1_0
  | Oars1_1
  | Unknown
deriving DecidableEq, Repr

/-- The hand-written `Ord for ContentRatingVersion` of
`src/content_rating.rs` (the impl used by the legacy deserializer to sort
multiple ratings): its final match arm sends `(Unknown, _)` **and**
`(_, Unknown)` to `Less`. -/
def ContentRatingVersion.cmpContentRatingRs :
    ContentRatingVersion -> ContentRatingVersion -> Ordering
  | .Oars1_0, .Oars1_1 => .lt
  | .Oars1_1, .Oars1_0 => .gt
  | .Oars1_0, .Oars1_0 | .Oars1_1, .Oars1_1 => .eq
  | .Unknown, _ | _, .Unknown => .lt

/-- The hand-written `Ord for ContentRatingVersion` of `src/enums.rs`: its
first match arm sends `(Oars1_0, Oars1_1)` and `(Unknown, _)` to `Less`, its
second `(Oars1_1, Oars1_0)` and `(_, Unknown)` to `Greater` (first match
wins, so `cmp Unknown Unknown = Less`). -/
def ContentRatingVersion.cmpEnumsRs :
    ContentRatingVersion -> ContentRatingVersion -> Ordering
  | .Oars1_0, .Oars1_1 | .Unknown, _ => .lt
  | .Oars1_1, .Oars1_0 | _, .Unknown => .gt
  | _, _ => .eq

/-- Mirror of `enums::ContentAttribute`: an OARS attribute id paired with
its `ContentState` intensity. -/
inductive ContentAttribute : Type where
  | ViolenceCartoon (s : ContentState)
  | ViolenceFantasy (s : ContentState)
  | ViolenceBloodshed (s : ContentState)
  | ViolenceSexual (s : ContentState)
  | ViolenceDesecration (s : ContentState)
  | ViolenceSlavery (s : ContentState)
  | ViolenceRealistic (s : ContentState)
  | ViolenceWorship (s : ContentState)
  | DrugsAlcohol (s : ContentState)
  | DrugsNarcotics (s : ContentState)
  | DrugsTobacco (s : ContentState)
  | SexNudity (s : ContentState)
  | SexThemes (s : ContentState)
  | SexHomosexuality (s : ContentState)
  | SexProstitution (s : ContentState)
  | SexAdultery (s : ContentState)
  | SexAppearance (s : ContentState)
  | LanguageProfanity (s : ContentState)
  | LanguageHumor (s : ContentState)
  | LanguageDiscrimination (s : ContentState)
  | SocialChat (s : ContentState)
  | SocialInfo (s : ContentState)
  | SocialAudio (s : ContentState)
  | SocialLocation (s : ContentState)
  | SocialContacts (s : ContentState)
  | MoneyAdvertising (s : ContentState)
  | MoneyPurchasing (s : ContentState)
  | MoneyGambling (s : ContentState)

/-- Mirror of `ContentRating`: a version tag and the attribute pairs. -/
structure ContentRating : Type where
  version : ContentRatingVersion
  attributes : List ContentAttribute

/-! ## Locale aggregation (`src/translatable_string.rs`) -/

/-- `translatable_string::DEFAULT_LOCALE`: the reserved default locale key. -/
def DEFAULT_LOCALE : String := "C"

/-- `BTreeMap::insert` on the association-list model of a string-keyed map
(replace the existing binding, otherwise add a new one). -/
def mapInsert {α : Type} (m : List (String × α)) (k : String) (v : α) :
    List (String × α) :=
  if m.any (fun p => p.1 == k) then
    m.map fun p => if p.1 == k then (k, v) else p
  else m ++ [(k, v)]

/-- `BTreeMap::get` on the association-list model. -/
def mapLookup {α : Type} (m : List (String × α)) (k : String) : Option α :=
  (m.find? (fun p => p.1 == k)).map (·.2)

mutual

/-- `translatable_string::element_to_xml`: re-serialize an element's children,
with nested element tags rendered as literal markup text. -/
def element_to_xml : Element → String
  | .mk _ _ children => nodesToXml children

/-- One node of `element_to_xml`'s rendering. -/
def nodeToXml : XMLNode → String
  | .element c => "<" ++ c.name ++ ">" ++ element_to_xml c ++ "</" ++ c.name ++ ">"
  | .text t => t

/-- Concatenation (`join("")`) of the per-node renderings. -/
def nodesToXml : List XMLNode → String
  | [] => ""
  | n :: rest => nodeToXml n ++ nodesToXml rest

end

/-- Mirror of `TranslatableString`: locale key ↦ one string. -/
structure TranslatableString : Type where
  map : List (String × String)
deriving DecidableEq, Repr

/-- `TranslatableString::default()`: the empty map. -/
def TranslatableString.default : TranslatableString := ⟨[]⟩

/-- `TranslatableString::add_for_locale`. -/
def TranslatableString.add_for_locale (t : TranslatableString)
    (locale : Option String) (text : String) : TranslatableString :=
  ⟨mapInsert t.map (locale.getD DEFAULT_LOCALE) text⟩

/-- `TranslatableString::add_for_element`: key = the `lang` attribute (or the
default key), value = the element's flattened text (or `""`). -/
def TranslatableString.add_for_element (t : TranslatableString) (element : Element) :
    TranslatableString :=
  t.add_for_locale (element.getAttr "lang") (element.getText.getD "")

/-- `TranslatableString::is_empty`. -/
def TranslatableString.is_empty (t : TranslatableString) : Bool := t.map.isEmpty

/-- Mirror of `MarkupTranslatableString`: locale key ↦ markup-preserving
string. -/
structure MarkupTranslatableString : Type where
  map : List (String × String)
deriving DecidableEq, Repr

/-- `MarkupTranslatableString::default()`. -/
def MarkupTranslatableString.default : MarkupTranslatableString := ⟨[]⟩

/-- `MarkupTranslatableString::add_for_locale`. -/
def MarkupTranslatableString.add_for_locale (t : MarkupTranslatableString)
    (locale : Option String) (text : String) : MarkupTranslatableString :=
  ⟨mapInsert t.map (locale.getD DEFAULT_LOCALE) text⟩

/-- `MarkupTranslatableString::add_for_element`: value = the inner content
with nested tags re-serialized as markup. -/
def MarkupTranslatableString.add_for_element (t : MarkupTranslatableString)
    (element : Element) : MarkupTranslatableString :=
  t.add_for_locale (element.getAttr "lang") (element_to_xml element)

/-- `MarkupTranslatableString::is_empty`. -/
def MarkupTranslatableString.is_empty (t : MarkupTranslatableString) : Bool :=
  t.map.isEmpty

/-- Mirror of `TranslatableList`: locale key ↦ accumulated list of strings. -/
structure TranslatableList : Type where
  map : List (String × List String)
deriving DecidableEq, Repr

/-- `TranslatableList::default()`. -/
def TranslatableList.default : TranslatableList := ⟨[]⟩

/-- `TranslatableList::add_for_locale`: `entry(..).and_modify(push).or_insert`
— append to the key's list, or start a new singleton list. -/
def TranslatableList.add_for_locale (t : TranslatableList)
    (locale : Option String) (text : String) : TranslatableList :=
  let k := locale.getD DEFAULT_LOCALE
  if t.map.any (fun p => p.1 == k) then
    ⟨t.map.map fun p => if p.1 == k then (p.1, p.2 ++ [text]) else p⟩
  else ⟨t.map ++ [(k, [text])]⟩

/-- `TranslatableList::add_for_element`. -/
def TranslatableList.add_for_element (t : TranslatableList) (element : Element) :
    TranslatableList :=
  t.add_for_locale (element.getAttr "lang") (element.getText.getD "")

/-- `TranslatableList::is_empty`. -/
def TranslatableList.is_empty (t : TranslatableList) : Bool := t.map.isEmpty

/-! ## Relation requirements (`src/requirements.rs`; carried by `Component`
but never produced by the tree-walking converter) -/

/-- Mirror of `requirements::Rel`. -/
inductive Rel : Type where
  | Eq | Ne | Lt | Gt | Le | Ge
deriving DecidableEq, Repr

/-- Mirror of `requirements::Side`. -/
inductive Side : Type where
  | Longest | Shortest
deriving DecidableEq, Repr

/-- Mirror of `requirements::DisplayLengthValue`. -/
inductive DisplayLengthValue : Type where
  | Xsmall | Small | Medium | Large | Xlarge
  | Value (v : Nat)
deriving DecidableEq, Repr

/-- Mirror of `requirements::DisplayLength`. -/
structure DisplayLength : Type where
  compare : Rel
  value : DisplayLengthValue
  side : Side
deriving DecidableEq, Repr

/-- Mirror of `requirements::Control`. -/
inductive Control : Type where
  | Pointing | Keyboard | Console | Tablet | Touch | Gamepad | TvRemote
  | Voice | Vision
deriving DecidableEq, Repr

/-- Mirror of `requirements::Requirement`. -/
inductive Requirement : Type where
  | DisplayLength (d : DisplayLength)
  | Control (c : Control)
  | AppId (id : AppId)
  | Other
deriving DecidableEq, Repr

/-! ## Entity structures (`src/release.rs`, `src/component.rs`,
`src/collection.rs`, `src/language.rs`, and the `Image`/`Video`/`Screenshot`
shapes built by `src/builders.rs`) -/

/-- Mirror of `language::Language`. -/
structure Language : Type where
  percentage : Option Nat
  locale : String
deriving DecidableEq, Repr

/-- Mirror of the `Image` value built by `builders::ImageBuilder`. -/
structure Image : Type where
  width : Option Nat
  height : Option Nat
  url : Url
  kind : ImageKind
deriving DecidableEq, Repr

/-- Mirror of the `Video` value built by `builders::VideoBuilder`. -/
structure Video : Type where
  width : Option Nat
  height : Option Nat
  codec : Option String
  container : Option String
  url : Url
deriving DecidableEq, Repr

/-- Mirror of the `Screenshot` value built by `builders::ScreenshotBuilder`. -/
structure Screenshot : Type where
  caption : Option TranslatableString
  images : List Image
  videos : List Video
  is_default : Bool
deriving DecidableEq, Repr

/-- Mirror of `release::Artifact`. -/
structure Artifact : Type where
  platform : Option String
  kind : ArtifactKind
  sizes : List Size
  url : Url
  checksums : List Checksum
  bundles : List Bundle
deriving DecidableEq, Repr

/-- Mirror of `release::Release` (without the `issues` list of the newer
builder revision, which the tree-walking converter never populates). -/
structure Release : Type where
  date : Option DateTime
  date_eol : Option DateTime
  version : String
  description : Option MarkupTranslatableString
  kind : ReleaseKind
  sizes : List Size
  urgency : ReleaseUrgency
  artifacts : List Artifact
  url : Option Url
deriving DecidableEq, Repr

/-- Mirror of `component::Component`. -/
structure Component : Type where
  kind : ComponentKind
  id : AppId
  name : TranslatableString
  requires : List Requirement
  recommends : List Requirement
  supports : List Requirement
  summary : Option TranslatableString
  description : Option MarkupTranslatableString
  project_license : Option License
  metadata_license : Option License
  project_group : Option String
  compulsory_for_desktop : Option String
  «extends» : List AppId
  icons : List Icon
  screenshots : List Screenshot
  urls : List ProjectUrl
  developer_name : Option TranslatableString
  update_contact : Option String
  categories : List Category
  launchables : List Launchable
  pkgname : Option String
  bundles : List Bundle
  releases : List Release
  languages : List Language
  mimetypes : List String
  kudos : List Kudo
  keywords : Option TranslatableList
  content_rating : Option ContentRating
  provides : List Provide
  translations : List Translation
  source_pkgname : Option String
  suggestions : List AppId
  metadata : List (String × Option String)

/-- Mirror of `collection::Collection`. -/
structure Collection : Type where
  version : String
  origin : Option String
  components : List Component
  architecture : Option String

/-! ## Construction helpers (`src/builders.rs`); `build` runs in `Conv`
because the source `expect`s (panics) on missing mandatory fields -/

/-- Mirror of `builders::ArtifactBuilder` (its `Default`). -/
structure ArtifactBuilder : Type where
  platform : Option String := none
  kind : Option ArtifactKind := none
  sizes : List Size := []
  url : Option Url := none
  checksums : List Checksum := []
  bundles : List Bundle := []

/-- `ArtifactBuilder::kind`. -/
def ArtifactBuilder.setKind (b : ArtifactBuilder) (kind : ArtifactKind) :
    ArtifactBuilder := { b with kind := some kind }

/-- `ArtifactBuilder::url`. -/
def ArtifactBuilder.setUrl (b : ArtifactBuilder) (url : Url) : ArtifactBuilder :=
  { b with url := some url }

/-- `ArtifactBuilder::bundle`. -/
def ArtifactBuilder.bundle (b : ArtifactBuilder) (bundle : Bundle) :
    ArtifactBuilder := { b with bundles := b.bundles ++ [bundle] }

/-- `ArtifactBuilder::size`. -/
def ArtifactBuilder.size (b : ArtifactBuilder) (size : Size) : ArtifactBuilder :=
  { b with sizes := b.sizes ++ [size] }

/-- `ArtifactBuilder::checksum`. -/
def ArtifactBuilder.checksum (b : ArtifactBuilder) (checksum : Checksum) :
    ArtifactBuilder := { b with checksums := b.checksums ++ [checksum] }

/-- `ArtifactBuilder::platform`. -/
def ArtifactBuilder.setPlatform (b : ArtifactBuilder) (platform : String) :
    ArtifactBuilder := { b with platform := some platform }

/-- `ArtifactBuilder::build`: `expect`s the mandatory location and type. -/
def ArtifactBuilder.build (b : ArtifactBuilder) : Conv Artifact := do
  let url ← expectOp b.url "an artifact location is required"
  let kind ← expectOp b.kind "artifact type is required"
  pure { platform := b.platform, kind := kind, sizes := b.sizes, url := url,
         checksums := b.checksums, bundles := b.bundles }

/-- Mirror of `builders::CollectionBuilder`. -/
structure CollectionBuilder : Type where
  version : String
  origin : Option String
  components : List Component
  architecture : Option String

/-- `CollectionBuilder::new`. -/
def CollectionBuilder.new (version : String) : CollectionBuilder :=
  { version := version, origin := none, components := [], architecture := none }

/-- `CollectionBuilder::architecture`. -/
def CollectionBuilder.setArchitecture (b : CollectionBuilder)
    (architecture : String) : CollectionBuilder :=
  { b with architecture := some architecture }

/-- `CollectionBuilder::origin`. -/
def CollectionBuilder.setOrigin (b : CollectionBuilder) (origin : String) :
    CollectionBuilder := { b with origin := some origin }

/-- `CollectionBuilder::component`. -/
def CollectionBuilder.component (b : CollectionBuilder) (component : Component) :
    CollectionBuilder := { b with components := b.components ++ [component] }

/-- `CollectionBuilder::build`. -/
def CollectionBuilder.build (b : CollectionBuilder) : Collection :=
  { version := b.version, origin := b.origin, components := b.components,
    architecture := b.architecture }

/-- Mirror of `builders::ImageBuilder`. -/
structure ImageBuilder : Type where
  width : Option Nat
  height : Option Nat
  url : Url
  kind : ImageKind

/-- `ImageBuilder::new`. -/
def ImageBuilder.new (url : Url) : ImageBuilder :=
  { width := none, height := none, url := url, kind := .Source }

/-- `ImageBuilder::kind`. -/
def ImageBuilder.setKind (b : ImageBuilder) (kind : ImageKind) : ImageBuilder :=
  { b with kind := kind }

/-- `ImageBuilder::width`. -/
def ImageBuilder.setWidth (b : ImageBuilder) (width : Nat) : ImageBuilder :=
  { b with width := some width }

/-- `ImageBuilder::height`. -/
def ImageBuilder.setHeight (b : ImageBuilder) (height : Nat) : ImageBuilder :=
  { b with height := some height }

/-- `ImageBuilder::build`. -/
def ImageBuilder.build (b : ImageBuilder) : Image :=
  { width := b.width, height := b.height, url := b.url, kind := b.kind }

/-- Mirror of `builders::VideoBuilder`. -/
structure VideoBuilder : Type where
  width : Option Nat
  height : Option Nat
  codec : Option String
  container : Option String
  url : Url

/-- `VideoBuilder::new`. -/
def VideoBuilder.new (url : Url) : VideoBuilder :=
  { width := none, height := none, container := none, codec := none, url := url }

/-- `VideoBuilder::width`. -/
def VideoBuilder.setWidth (b : VideoBuilder) (width : Nat) : VideoBuilder :=
  { b with width := some width }

/-- `VideoBuilder::height`. -/
def VideoBuilder.setHeight (b : VideoBuilder) (height : Nat) : VideoBuilder :=
  { b with height := some height }

/-- `VideoBuilder::container`. -/
def VideoBuilder.setContainer (b : VideoBuilder) (container : String) :
    VideoBuilder := { b with container := some container }

/-- `VideoBuilder::codec`. -/
def VideoBuilder.setCodec (b : VideoBuilder) (codec : String) : VideoBuilder :=
  { b with codec := some codec }

/-- `VideoBuilder::build`. -/
def VideoBuilder.build (b : VideoBuilder) : Video :=
  { width := b.width, height := b.height, codec := b.codec,
    container := b.container, url := b.url }

/-- Mirror of `builders::ScreenshotBuilder` (its `Default`). -/
structure ScreenshotBuilder : Type where
  is_default : Option Bool := none
  caption : Option TranslatableString := none
  images : List Image := []
  videos : List Video := []

/-- `ScreenshotBuilder::caption`: only kept when nonempty. -/
def ScreenshotBuilder.setCaption (b : ScreenshotBuilder)
    (caption : TranslatableString) : ScreenshotBuilder :=
  if !caption.is_empty then { b with caption := some caption } else b

/-- `ScreenshotBuilder::set_default`. -/
def ScreenshotBuilder.set_default (b : ScreenshotBuilder) (is_default : Bool) :
    ScreenshotBuilder := { b with is_default := some is_default }

/-- `ScreenshotBuilder::image`. -/
def ScreenshotBuilder.image (b : ScreenshotBuilder) (image : Image) :
    ScreenshotBuilder := { b with images := b.images ++ [image] }

/-- `ScreenshotBuilder::video`. -/
def ScreenshotBuilder.video (b : ScreenshotBuilder) (video : Video) :
    ScreenshotBuilder := { b with videos := b.videos ++ [video] }

/-- `ScreenshotBuilder::build` (`is_default` defaults to `true`). -/
def ScreenshotBuilder.build (b : ScreenshotBuilder) : Screenshot :=
  { caption := b.caption, images := b.images, videos := b.videos,
    is_default := b.is_default.getD true }

/-- Mirror of `builders::ReleaseBuilder` (the `issues` list, never fed by the
tree-walking converter, is omitted). -/
structure ReleaseBuilder : Type where
  date : Option DateTime
  date_eol : Option DateTime
  description : Option MarkupTranslatableString
  version : String
  kind : Option ReleaseKind
  sizes : List Size
  urgency : ReleaseUrgency
  artifacts : List Artifact
  url : Option Url

/-- `ReleaseBuilder::new`. -/
def ReleaseBuilder.new (version : String) : ReleaseBuilder :=
  { date := none, date_eol := none, description := none,
    kind := some .Stable, sizes := [], version := version,
    urgency := .Medium, artifacts := [], url := none }

/-- `ReleaseBuilder::description`: only kept when nonempty. -/
def ReleaseBuilder.setDescription (b : ReleaseBuilder)
    (description : MarkupTranslatableString) : ReleaseBuilder :=
  if !description.is_empty then { b with description := some description } else b

/-- `ReleaseBuilder::url`. -/
def ReleaseBuilder.setUrl (b : ReleaseBuilder) (url : Url) : ReleaseBuilder :=
  { b with url := some url }

/-- `ReleaseBuilder::urgency`. -/
def ReleaseBuilder.setUrgency (b : ReleaseBuilder) (urgency : ReleaseUrgency) :
    ReleaseBuilder := { b with urgency := urgency }

/-- `ReleaseBuilder::date`. -/
def ReleaseBuilder.setDate (b : ReleaseBuilder) (date : DateTime) :
    ReleaseBuilder := { b with date := some date }

/-- `ReleaseBuilder::date_eol`. -/
def ReleaseBuilder.setDateEol (b : ReleaseBuilder) (date_eol : DateTime) :
    ReleaseBuilder := { b with date_eol := some date_eol }

/-- `ReleaseBuilder::kind`. -/
def ReleaseBuilder.setKind (b : ReleaseBuilder) (kind : ReleaseKind) :
    ReleaseBuilder := { b with kind := some kind }

/-- `ReleaseBuilder::size`. -/
def ReleaseBuilder.size (b : ReleaseBuilder) (size : Size) : ReleaseBuilder :=
  { b with sizes := b.sizes ++ [size] }

/-- `ReleaseBuilder::artifact`. -/
def ReleaseBuilder.artifact (b : ReleaseBuilder) (artifact : Artifact) :
    ReleaseBuilder := { b with artifacts := b.artifacts ++ [artifact] }

/-- `ReleaseBuilder::build` (`kind` falls back to its default, `Stable`). -/
def ReleaseBuilder.build (b : ReleaseBuilder) : Release :=
  { version := b.version, date := b.date, date_eol := b.date_eol,
    kind := b.kind.getD .Stable, description := b.description,
    sizes := b.sizes, urgency := b.urgency, artifacts := b.artifacts,
    url := b.url }

/-- Mirror of `builders::ComponentBuilder` (its `Default`). -/
structure ComponentBuilder : Type where
  kind : ComponentKind := ComponentKind.default
  id : Option AppId := none
  name : Option TranslatableString := none
  summary : Option TranslatableString := none
  description : Option MarkupTranslatableString := none
  project_license : Option License := none
  metadata_license : Option License := none
  project_group : Option String := none
  compulsory_for_desktop : Option String := none
  «extends» : List AppId := []
  icons : List Icon := []
  screenshots : List Screenshot := []
  urls : List ProjectUrl := []
  developer_name : Option TranslatableString := none
  update_contact : Option String := none
  categories : List Category := []
  launchables : List Launchable := []
  pkgname : Option String := none
  bundles : List Bundle := []
  releases : List Release := []
  languages : List Language := []
  mimetypes : List String := []
  kudos : List Kudo := []
  keywords : Option TranslatableList := none
  content_rating : Option ContentRating := none
  provides : List Provide := []
  translations : List Translation := []
  source_pkgname : Option String := none
  suggestions : List AppId := []
  metadata : List (String × Option String) := []
  supports : List Requirement := []
  recommends : List Requirement := []
  requires : List Requirement := []

/-- `ComponentBuilder::id`. -/
def ComponentBuilder.setId (b : ComponentBuilder) (id : AppId) :
    ComponentBuilder := { b with id := some id }

/-- `ComponentBuilder::name` (note: set unconditionally, unlike the
`is_empty`-guarded setters below). -/
def ComponentBuilder.setName (b : ComponentBuilder) (name : TranslatableString) :
    ComponentBuilder := { b with name := some name }

/-- `ComponentBuilder::content_rating` (plain overwrite of the field). -/
def ComponentBuilder.setContentRating (b : ComponentBuilder)
    (content_rating : ContentRating) : ComponentBuilder :=
  { b with content_rating := some content_rating }

/-- `ComponentBuilder::kind`. -/
def ComponentBuilder.setKind (b : ComponentBuilder) (kind : ComponentKind) :
    ComponentBuilder := { b with kind := kind }

/-- `ComponentBuilder::developer_name`: only kept when nonempty. -/
def ComponentBuilder.setDeveloperName (b : ComponentBuilder)
    (developer_name : TranslatableString) : ComponentBuilder :=
  if !developer_name.is_empty then { b with developer_name := some developer_name }
  else b

/-- `ComponentBuilder::summary`: only kept when nonempty. -/
def ComponentBuilder.setSummary (b : ComponentBuilder)
    (summary : TranslatableString) : ComponentBuilder :=
  if !summary.is_empty then { b with summary := some summary } else b

/-- `ComponentBuilder::description`: only kept when nonempty. -/
def ComponentBuilder.setDescription (b : ComponentBuilder)
    (description : MarkupTranslatableString) : ComponentBuilder :=
  if !description.is_empty then { b with description := some description } else b

/-- `ComponentBuilder::metadata_license`. -/
def ComponentBuilder.setMetadataLicense (b : ComponentBuilder) (license : License) :
    ComponentBuilder := { b with metadata_license := some license }

/-- `ComponentBuilder::project_license`. -/
def ComponentBuilder.setProjectLicense (b : ComponentBuilder) (license : License) :
    ComponentBuilder := { b with project_license := some license }

/-- `ComponentBuilder::keywords`: only kept when nonempty. -/
def ComponentBuilder.setKeywords (b : ComponentBuilder)
    (keywords : TranslatableList) : ComponentBuilder :=
  if !keywords.is_empty then { b with keywords := some keywords } else b

/-- `ComponentBuilder::compulsory_for_desktop`. -/
def ComponentBuilder.setCompulsoryForDesktop (b : ComponentBuilder)
    (compulsory_for_desktop : String) : ComponentBuilder :=
  { b with compulsory_for_desktop := some compulsory_for_desktop }

/-- `ComponentBuilder::project_group`. -/
def ComponentBuilder.setProjectGroup (b : ComponentBuilder) (group : String) :
    ComponentBuilder := { b with project_group := some group }

/-- `ComponentBuilder::suggest`. -/
def ComponentBuilder.suggest (b : ComponentBuilder) (id : AppId) :
    ComponentBuilder := { b with suggestions := b.suggestions ++ [id] }

/-- `ComponentBuilder::url`. -/
def ComponentBuilder.url (b : ComponentBuilder) (url : ProjectUrl) :
    ComponentBuilder := { b with urls := b.urls ++ [url] }

/-- `ComponentBuilder::screenshot`. -/
def ComponentBuilder.screenshot (b : ComponentBuilder) (screenshot : Screenshot) :
    ComponentBuilder := { b with screenshots := b.screenshots ++ [screenshot] }

/-- `ComponentBuilder::icon`. -/
def ComponentBuilder.icon (b : ComponentBuilder) (icon : Icon) :
    ComponentBuilder := { b with icons := b.icons ++ [icon] }

/-- `ComponentBuilder::kudo`. -/
def ComponentBuilder.kudo (b : ComponentBuilder) (kudo : Kudo) :
    ComponentBuilder := { b with kudos := b.kudos ++ [kudo] }

/-- `ComponentBuilder::translation`. -/
def ComponentBuilder.translation (b : ComponentBuilder) (translation : Translation) :
    ComponentBuilder := { b with translations := b.translations ++ [translation] }

/-- `ComponentBuilder::bundle`. -/
def ComponentBuilder.bundle (b : ComponentBuilder) (bundle : Bundle) :
    ComponentBuilder := { b with bundles := b.bundles ++ [bundle] }

/-- `ComponentBuilder::language`. -/
def ComponentBuilder.language (b : ComponentBuilder) (language : Language) :
    ComponentBuilder := { b with languages := b.languages ++ [language] }

/-- `ComponentBuilder::category`. -/
def ComponentBuilder.category (b : ComponentBuilder) (category : Category) :
    ComponentBuilder := { b with categories := b.categories ++ [category] }

/-- `ComponentBuilder::mimetype`. -/
def ComponentBuilder.mimetype (b : ComponentBuilder) (mimetype : String) :
    ComponentBuilder := { b with mimetypes := b.mimetypes ++ [mimetype] }

/-- `ComponentBuilder::extend`. -/
def ComponentBuilder.extend (b : ComponentBuilder) (ext : AppId) :
    ComponentBuilder := { b with «extends» := b.«extends» ++ [ext] }

/-- `ComponentBuilder::release`. -/
def ComponentBuilder.release (b : ComponentBuilder) (release : Release) :
    ComponentBuilder := { b with releases := b.releases ++ [release] }

/-- `ComponentBuilder::launchable`. -/
def ComponentBuilder.launchable (b : ComponentBuilder) (launchable : Launchable) :
    ComponentBuilder := { b with launchables := b.launchables ++ [launchable] }

/-- `ComponentBuilder::provide`. -/
def ComponentBuilder.provide (b : ComponentBuilder) (provide : Provide) :
    ComponentBuilder := { b with provides := b.provides ++ [provide] }

/-- `ComponentBuilder::pkgname`. -/
def ComponentBuilder.setPkgname (b : ComponentBuilder) (pkgname : String) :
    ComponentBuilder := { b with pkgname := some pkgname }

/-- `ComponentBuilder::source_pkgname`. -/
def ComponentBuilder.setSourcePkgname (b : ComponentBuilder)
    (source_pkgname : String) : ComponentBuilder :=
  { b with source_pkgname := some source_pkgname }

/-- `ComponentBuilder::update_contact`. -/
def ComponentBuilder.setUpdateContact (b : ComponentBuilder)
    (update_contact : String) : ComponentBuilder :=
  { b with update_contact := some update_contact }

/-- `ComponentBuilder::metadata` (`HashMap::insert`). -/
def ComponentBuilder.addMetadata (b : ComponentBuilder) (key : String)
    (val : Option String) : ComponentBuilder :=
  { b with metadata :=
      if b.metadata.any (fun p => p.1 == key) then
        b.metadata.map fun p => if p.1 == key then (key, val) else p
      else b.metadata ++ [(key, val)] }

/-- `ComponentBuilder::build`: `expect`s (panics on) a missing `id` or
`name`. -/
def ComponentBuilder.build (b : ComponentBuilder) : Conv Component := do
  let id ← expectOp b.id "An 'id' is required"
  let name ← expectOp b.name "A 'name' is required"
  pure { kind := b.kind, id := id, name := name, requires := b.requires,
         recommends := b.recommends, supports := b.supports,
         summary := b.summary, description := b.description,
         project_license := b.project_license,
         metadata_license := b.metadata_license,
         project_group := b.project_group,
         compulsory_for_desktop := b.compulsory_for_desktop,
         «extends» := b.«extends», icons := b.icons,
         screenshots := b.screenshots, urls := b.urls,
         developer_name := b.developer_name,
         update_contact := b.update_contact, categories := b.categories,
         launchables := b.launchables, pkgname := b.pkgname,
         bundles := b.bundles, releases := b.releases,
         languages := b.languages, mimetypes := b.mimetypes,
         kudos := b.kudos, keywords := b.keywords,
         content_rating := b.content_rating, provides := b.provides,
         translations := b.translations, source_pkgname := b.source_pkgname,
         suggestions := b.suggestions, metadata := b.metadata }

/-! ## The tree-to-model conversion layer (`src/xml.rs`) -/

/-- The `for node in &e.children { ... ? ... }` loop shape shared by every
converter: a monadic left fold that propagates the first failure. -/
def foldChildren {σ : Type} (f : σ → XMLNode → Conv σ) :
    σ → List XMLNode → Conv σ
  | s, [] => .ok s
  | s, n :: rest =>
    match f s n with
    | .ok s' => foldChildren f s' rest
    | .error e => .error e

/-- `TryFrom<&Element> for AppId`: the element's text, `unwrap`ped. -/
def AppId.try_from (e : Element) : Conv AppId := do
  let t ← unwrapOp e.getText
  pure ⟨t⟩

/-- `TryFrom<&Element> for License`: the element's text, `unwrap`ped. -/
def License.try_from (e : Element) : Conv License := do
  let t ← unwrapOp e.getText
  pure ⟨t⟩

/-- `TryFrom<&Element> for Bundle`. -/
def Bundle.try_from (e : Element) : Conv Bundle := do
  let val ← unwrapOp e.getText
  match e.getAttr "type" with
  | some t =>
    match t with
    | "tarball" => pure (.Tarball val)
    | "snap" => pure (.Snap val)
    | "appimage" => pure (.AppImage val)
    | "limba" => pure (.Limba val)
    | "flatpak" =>
      match e.getAttr "sdk" with
      | some sdk => pure (.Flatpak (e.getAttr "runtime") sdk val)
      | none => throw (.err (.missingAttribute "sdk" "bundle"))
    | _ => throw (.err (.invalidValue t "type" "bundle"))
  | none => throw (.err (.missingAttribute "type" "bundle"))

/-- `TryFrom<&Element> for Checksum`: note the missing-attribute arm names
the tag `"provide"`. -/
def Checksum.try_from (e : Element) : Conv Checksum := do
  let val ← unwrapOp e.getText
  match e.getAttr "type" with
  | some t =>
    match t with
    | "sha1" => pure (.Sha1 val)
    | "sha256" => pure (.Sha256 val)
    | "blake2b" => pure (.Blake2b val)
    | "blake2s" => pure (.Blake2s val)
    | _ => throw (.err (.invalidValue t "type" "checksum"))
  | none => throw (.err (.missingAttribute "type" "provide"))

/-- `TryFrom<&Element> for Size`. -/
def Size.try_from (e : Element) : Conv Size := do
  let val ← okOr e.getText (.missingValue "size")
  match e.getAttr "type" with
  | some t =>
    match t with
    | "download" =>
      match parseU64 val with
      | some v => pure (.Download v)
      | none => throw (.err (.invalidValue val "download" "size"))
    | "installed" =>
      match parseU64 val with
      | some v => pure (.Installed v)
      | none => throw (.err (.invalidValue val "installed" "size"))
    | _ => throw (.err (.invalidValue t "type" "size"))
  | none => throw (.err (.missingAttribute "type" "size"))

/-- One node of the `<artifact>` child loop. -/
def artifactChildStep (artifact : ArtifactBuilder) (n : XMLNode) :
    Conv ArtifactBuilder :=
  match n with
  | .text _ => pure artifact
  | .element e =>
    match e.name with
    | "location" => do
      let t ← unwrapOp e.getText
      let url ← Url.parse t
      pure (artifact.setUrl url)
    | "size" => do pure (artifact.size (← Size.try_from e))
    | "checksum" => do pure (artifact.checksum (← Checksum.try_from e))
    | _ => pure artifact

/-- `TryFrom<&Element> for Artifact`. -/
def Artifact.try_from (e : Element) : Conv Artifact := do
  let artifact : ArtifactBuilder := {}
  let artifact ← match e.getAttr "type" with
    | some kind =>
      match ArtifactKind.from_str kind with
      | some k => pure (artifact.setKind k)
      | none => throw (.err (.invalidValue kind "type" "artifact"))
    | none => pure artifact
  let artifact := match e.getAttr "platform" with
    | some platform => artifact.setPlatform platform
    | none => artifact
  let artifact ← foldChildren artifactChildStep artifact e.children
  artifact.build

/-- `TryFrom<&Element> for ContentAttribute`. -/
def ContentAttribute.try_from (e : Element) : Conv ContentAttribute := do
  let raw ← unwrapOp e.getText
  let val ← match ContentState.from_str raw with
    | some v => pure v
    | none => throw (.err (.invalidValue raw "$value" "content-attribute"))
  match e.getAttr "id" with
  | some t =>
    match t with
    | "violence-cartoon" => pure (.ViolenceCartoon val)
    | "violence-fantasy" => pure (.ViolenceFantasy val)
    | "violence-bloodshed" => pure (.ViolenceBloodshed val)
    | "violence-sexual" => pure (.ViolenceSexual val)
    | "violence-desecration" => pure (.ViolenceDesecration val)
    | "violence-slavery" => pure (.ViolenceSlavery val)
    | "violence-realistic" => pure (.ViolenceRealistic val)
    | "violence-worship" => pure (.ViolenceWorship val)
    | "drugs-alcohol" => pure (.DrugsAlcohol val)
    | "drugs-narcotics" => pure (.DrugsNarcotics val)
    | "drugs-tobacco" => pure (.DrugsTobacco val)
    | "sex-nudity" => pure (.SexNudity val)
    | "sex-themes" => pure (.SexThemes val)
    | "sex-homosexuality" => pure (.SexHomosexuality val)
    | "sex-prostitution" => pure (.SexProstitution val)
    | "sex-adultery" => pure (.SexAdultery val)
    | "sex-appearance" => pure (.SexAppearance val)
    | "language-profanity" => pure (.LanguageProfanity val)
    | "language-humor" => pure (.LanguageHumor val)
    | "language-discrimination" => pure (.LanguageDiscrimination val)
    | "social-chat" => pure (.SocialChat val)
    | "social-info" => pure (.SocialInfo val)
    | "social-audio" => pure (.SocialAudio val)
    | "social-location" => pure (.SocialLocation val)
    | "social-contacts" => pure (.SocialContacts val)
    | "money-advertising" => pure (.MoneyAdvertising val)
    | "money-purchasing" => pure (.MoneyPurchasing val)
    | "money-gambling" => pure (.MoneyGambling val)
    | id => throw (.err (.invalidValue id "id" "content-attribute"))
  | none => throw (.err (.missingAttribute "id" "content-attribute"))

/-- One node of the `<content_rating>` child loop: every child must be an
element and a valid content attribute. -/
def contentRatingChildStep (acc : List ContentAttribute) (n : XMLNode) :
    Conv (List ContentAttribute) := do
  let el ← okOr n.asElement (.invalidTag "content-attribute")
  let a ← ContentAttribute.try_from el
  pure (acc ++ [a])

/-- `TryFrom<&Element> for ContentRating`: the `type` attribute selects the
OARS version (anything unrecognized or absent becomes `Unknown`). -/
def ContentRating.try_from (e : Element) : Conv ContentRating := do
  let version : ContentRatingVersion :=
    match e.getAttr "type" with
    | some t =>
      match t with
      | "oars-1.0" => .Oars1_0
      | "oars-1.1" => .Oars1_1
      | _ => .Unknown
    | none => .Unknown
  let attributes ← foldChildren contentRatingChildStep [] e.children
  pure { version := version, attributes := attributes }

/-- The `width`/`height` reads of `Icon::try_from`:
`e.attributes.get(a).map(|w| w.parse::<u32>().unwrap())`. -/
def iconDim (e : Element) (attr : String) : Conv (Option Nat) :=
  match e.getAttr attr with
  | none => pure none
  | some w => do pure (some (← unwrapOp (parseU32 w)))

/-- `TryFrom<&Element> for Icon`: the `type` attribute defaults to
`"local"`, and any unrecognized value also falls back to `Local`. -/
def Icon.try_from (e : Element) : Conv Icon := do
  let val ← unwrapOp e.getText
  let kind := match e.getAttr "type" with
    | some t => t
    | none => "local"
  match kind with
  | "stock" => pure (.Stock val)
  | "cached" => do pure (.Cached val (← iconDim e "width") (← iconDim e "height"))
  | "remote" => do
    let url ← Url.parse val
    pure (.Remote url (← iconDim e "width") (← iconDim e "height"))
  | _ => do pure (.Local val (← iconDim e "width") (← iconDim e "height"))

/-- `TryFrom<&Element> for Image`. -/
def Image.try_from (e : Element) : Conv Image := do
  let t ← unwrapOp e.getText
  let url ← Url.parse t
  let img := ImageBuilder.new url
  let kind ← match e.getAttr "type" with
    | some t =>
      match ImageKind.from_str t with
      | some k => pure k
      | none => throw (.err (.invalidValue t "type" "image"))
    | none => pure ImageKind.Source
  let img := img.setKind kind
  let img ← match e.getAttr "width" with
    | some w =>
      match parseU32 w with
      | some v => pure (img.setWidth v)
      | none => throw (.err (.invalidValue w "width" "image"))
    | none => pure img
  let img ← match e.getAttr "height" with
    | some h =>
      match parseU32 h with
      | some v => pure (img.setHeight v)
      | none => throw (.err (.invalidValue h "height" "image"))
    | none => pure img
  pure img.build

/-- `TryFrom<&Element> for Language`. -/
def Language.try_from (e : Element) : Conv Language := do
  let locale ← unwrapOp e.getText
  match e.getAttr "percentage" with
  | some p =>
    match parseU32 p with
    | some percentage => pure { locale := locale, percentage := some percentage }
    | none => throw (.err (.invalidValue p "percentage" "language"))
  | none => pure { locale := locale, percentage := none }

/-- `TryFrom<&Element> for Launchable`: a missing or unrecognized `type`
attribute yields the `Unknown` member, not an error. -/
def Launchable.try_from (e : Element) : Conv Launchable := do
  let val := match e.getText with
    | some v => v
    | none => ""
  let kind := match e.getAttr "type" with
    | some k => k
    | none => "unknown"
  match kind with
  | "cockpit-manifest" => pure (.CockpitManifest val)
  | "desktop-id" => pure (.DesktopId val)
  | "service" => pure (.Service val)
  | "url" => do pure (.Url (← Url.parse val))
  | _ => pure (.Unknown val)

/-- `TryFrom<&Element> for ProjectUrl`: unrecognized `type` values fall back
to the `Unknown` member, but a missing `type` attribute is fatal. -/
def ProjectUrl.try_from (e : Element) : Conv ProjectUrl := do
  let val ← okOr e.getText (.missingValue "url")
  match e.getAttr "type" with
  | some t =>
    match t with
    | "help" => do pure (.Help (← Url.parse val))
    | "homepage" => do pure (.Homepage (← Url.parse val))
    | "donation" => do pure (.Donation (← Url.parse val))
    | "contact" => do pure (.Contact (← Url.parse val))
    | "translate" => do pure (.Translate (← Url.parse val))
    | "faq" => do pure (.Faq (← Url.parse val))
    | "bugtracker" => do pure (.BugTracker (← Url.parse val))
    | _ => do pure (.Unknown (← Url.parse val))
  | none => throw (.err (.missingAttribute "type" "url"))

/-- `TryFrom<&Element> for Provide`: dispatch on the element's own tag
name. -/
def Provide.try_from (e : Element) : Conv Provide := do
  let val ← unwrapOp e.getText
  match e.name with
  | "library" => pure (.Library val)
  | "binary" => pure (.Binary val)
  | "font" => pure (.Font val)
  | "modalias" => pure (.Modalias val)
  | "python2" => pure (.Python2 val)
  | "python3" => pure (.Python3 val)
  | "dbus" => pure (.DBus val)
  | "id" => pure (.Id ⟨val⟩)
  | "codec" => pure (.Codec val)
  | "firmware" =>
    match e.getAttr "type" with
    | some kind =>
      match FirmwareKind.from_str kind with
      | some k => pure (.Firmware k val)
      | none => throw (.err (.invalidValue kind "type" "firmware"))
    | none => throw (.err (.missingAttribute "type" "firmware"))
  | t => throw (.err (.invalidValue t "type" "provide"))

/-- `TryFrom<&Element> for Translation`: only `gettext` and `qt` are
recognized; any other `type` value is a fatal `InvalidValue`, and a missing
`type` attribute a fatal `MissingAttribute`. -/
def Translation.try_from (e : Element) : Conv Translation := do
  let val := e.getText.getD ""
  match e.getAttr "type" with
  | some t =>
    match t with
    | "gettext" => pure (.Gettext val)
    | "qt" => pure (.Qt val)
    | _ => throw (.err (.invalidValue t "type" "translation"))
  | none => throw (.err (.missingAttribute "type" "translation"))

/-- `TryFrom<&Element> for Video`. -/
def Video.try_from (e : Element) : Conv Video := do
  let t ← unwrapOp e.getText
  let url ← Url.parse t
  let video := VideoBuilder.new url
  let video := match e.getAttr "container" with
    | some container => video.setContainer container
    | none => video
  let video := match e.getAttr "codec" with
    | some codec => video.setCodec codec
    | none => video
  let video ← match e.getAttr "width" with
    | some w =>
      match parseU32 w with
      | some v => pure (video.setWidth v)
      | none => throw (.err (.invalidValue w "width" "video"))
    | none => pure video
  let video ← match e.getAttr "height" with
    | some h =>
      match parseU32 h with
      | some v => pure (video.setHeight v)
      | none => throw (.err (.invalidValue h "height" "video"))
    | none => pure video
  pure video.build

/-- Fold state of the `<screenshot>` child loop. -/
structure ScreenshotWalkState : Type where
  s : ScreenshotBuilder
  caption : TranslatableString

/-- One node of the `<screenshot>` child loop. -/
def screenshotChildStep (st : ScreenshotWalkState) (n : XMLNode) :
    Conv ScreenshotWalkState :=
  match n with
  | .text _ => pure st
  | .element e =>
    match e.name with
    | "image" => do pure { st with s := st.s.image (← Image.try_from e) }
    | "caption" => pure { st with caption := st.caption.add_for_element e }
    | "video" => do pure { st with s := st.s.video (← Video.try_from e) }
    | _ => pure st

/-- `TryFrom<&Element> for Screenshot`: default iff the `type` attribute
equals the sentinel `"default"`. -/
def Screenshot.try_from (e : Element) : Conv Screenshot := do
  let s := ScreenshotBuilder.set_default {}
    (match e.getAttr "type" with
     | some t => t == "default"
     | none => false)
  let st ← foldChildren screenshotChildStep
    { s := s, caption := TranslatableString.default } e.children
  pure ((st.s.setCaption st.caption).build)

/-- One node of the `<artifacts>` list inside a release: every child must be
an element. -/
def releaseArtifactsStep (release : ReleaseBuilder) (n : XMLNode) :
    Conv ReleaseBuilder := do
  let el ← okOr n.asElement (.invalidTag "artifact")
  pure (release.artifact (← Artifact.try_from el))

/-- Fold state of the `<release>` child loop. -/
structure ReleaseWalkState : Type where
  release : ReleaseBuilder
  description : MarkupTranslatableString

/-- One node of the `<release>` child loop. -/
def releaseChildStep (st : ReleaseWalkState) (n : XMLNode) :
    Conv ReleaseWalkState :=
  match n with
  | .text _ => pure st
  | .element c =>
    match c.name with
    | "artifacts" => do
      let r ← foldChildren releaseArtifactsStep st.release c.children
      pure { st with release := r }
    | "size" => do pure { st with release := st.release.size (← Size.try_from c) }
    | "description" =>
      pure { st with description := st.description.add_for_element c }
    | "url" => do
      let t ← unwrapOp c.getText
      pure { st with release := st.release.setUrl (← Url.parse t) }
    | _ => pure st

/-- The `date` attribute block of `Release::try_from`: if present, resolve
it through `deserialize_date` into the builder's `date` field. -/
def releaseApplyDate (e : Element) (release : ReleaseBuilder) :
    Conv ReleaseBuilder :=
  match e.getAttr "date" with
  | some d =>
    match deserialize_date d with
    | some t => pure (release.setDate t)
    | none => throw (.err (.invalidValue d "date" "release"))
  | none => pure release

/-- The `timestamp` attribute block of `Release::try_from`: parsed by the
same `deserialize_date` and stored into the same `date` field (an alias for
`date`, applied after it). -/
def releaseApplyTimestamp (e : Element) (release : ReleaseBuilder) :
    Conv ReleaseBuilder :=
  match e.getAttr "timestamp" with
  | some d =>
    match deserialize_date d with
    | some t => pure (release.setDate t)
    | none => throw (.err (.invalidValue d "timestamp" "release"))
  | none => pure release

/-- The `date_eol` attribute block of `Release::try_from`: resolved
independently by the same procedure, into the `date_eol` field. -/
def releaseApplyDateEol (e : Element) (release : ReleaseBuilder) :
    Conv ReleaseBuilder :=
  match e.getAttr "date_eol" with
  | some d =>
    match deserialize_date d with
    | some t => pure (release.setDateEol t)
    | none => throw (.err (.invalidValue d "date_eol" "release"))
  | none => pure release

/-- The `urgency` attribute block of `Release::try_from`. -/
def releaseApplyUrgency (e : Element) (release : ReleaseBuilder) :
    Conv ReleaseBuilder :=
  match e.getAttr "urgency" with
  | some urgency =>
    match ReleaseUrgency.from_str urgency with
    | some u => pure (release.setUrgency u)
    | none => throw (.err (.invalidValue urgency "urgency" "release"))
  | none => pure release

/-- The `type` attribute block of `Release::try_from`. -/
def releaseApplyKind (e : Element) (release : ReleaseBuilder) :
    Conv ReleaseBuilder :=
  match e.getAttr "type" with
  | some kind =>
    match ReleaseKind.from_str kind with
    | some k => pure (release.setKind k)
    | none => throw (.err (.invalidValue kind "type" "release"))
  | none => pure release

/-- `TryFrom<&Element> for Release`: the mandatory `version` attribute, then
the date-like attributes `date`, `timestamp` (an alias for `date`, applied
after it) and `date_eol`, each resolved by `deserialize_date`, then `urgency`
and `type`, then the children. -/
def Release.try_from (e : Element) : Conv Release := do
  let version ← okOr (e.getAttr "version") (.missingAttribute "version" "release")
  let release := ReleaseBuilder.new version
  let release ← releaseApplyDate e release
  let release ← releaseApplyTimestamp e release
  let release ← releaseApplyDateEol e release
  let release ← releaseApplyUrgency e release
  let release ← releaseApplyKind e release
  let st ← foldChildren releaseChildStep
    { release := release, description := MarkupTranslatableString.default }
    e.children
  pure ((st.release.setDescription st.description).build)

/-- One node of the `<categories>` list: every child must be an element; the
category vocabulary itself never fails (strum default catch-all). -/
def categoriesStep (component : ComponentBuilder) (n : XMLNode) :
    Conv ComponentBuilder := do
  let el ← okOr n.asElement (.invalidTag "category")
  let category ← unwrapOp el.getText
  pure (component.category (Category.from_str category))

/-- One node of the `<keywords>` list. -/
def keywordsStep (keywords : TranslatableList) (n : XMLNode) :
    Conv TranslatableList := do
  let el ← okOr n.asElement (.invalidTag "keywords")
  pure (keywords.add_for_element el)

/-- One node of the `<kudos>` list (the kudo vocabulary never fails). -/
def kudosStep (component : ComponentBuilder) (n : XMLNode) :
    Conv ComponentBuilder := do
  let el ← okOr n.asElement (.invalidTag "kudo")
  let kudo ← unwrapOp el.getText
  pure (component.kudo (Kudo.from_str kudo))

/-- One node of the `<mimetypes>` list. -/
def mimetypesStep (component : ComponentBuilder) (n : XMLNode) :
    Conv ComponentBuilder := do
  let el ← okOr n.asElement (.invalidTag "mimetype")
  let t ← unwrapOp el.getText
  pure (component.mimetype t)

/-- One node of the `<screenshots>` list. -/
def screenshotsStep (component : ComponentBuilder) (n : XMLNode) :
    Conv ComponentBuilder := do
  let el ← okOr n.asElement (.invalidTag "screenshots")
  pure (component.screenshot (← Screenshot.try_from el))

/-- One node of the `<releases>` list. -/
def releasesStep (component : ComponentBuilder) (n : XMLNode) :
    Conv ComponentBuilder := do
  let el ← okOr n.asElement (.invalidTag "releases")
  pure (component.release (← Release.try_from el))

/-- One node of the `<languages>` list. -/
def languagesStep (component : ComponentBuilder) (n : XMLNode) :
    Conv ComponentBuilder := do
  let el ← okOr n.asElement (.invalidTag "languages")
  pure (component.language (← Language.try_from el))

/-- One node of the `<provides>` list (the `InvalidTag` payload reproduces
the source's `"prorivdes"` typo). -/
def providesStep (component : ComponentBuilder) (n : XMLNode) :
    Conv ComponentBuilder := do
  let el ← okOr n.asElement (.invalidTag "prorivdes")
  pure (component.provide (← Provide.try_from el))

/-- One node of the `<suggests>` list. -/
def suggestsStep (component : ComponentBuilder) (n : XMLNode) :
    Conv ComponentBuilder := do
  let el ← okOr n.asElement (.invalidTag "id")
  pure (component.suggest (← AppId.try_from el))

/-- One node of the `<metadata>` list: a mandatory `key` attribute; the value
is the child's optional text. -/
def metadataStep (component : ComponentBuilder) (n : XMLNode) :
    Conv ComponentBuilder := do
  let child ← okOr n.asElement (.invalidTag "value")
  let key ← okOr (child.getAttr "key") (.missingAttribute "key" "value")
  pure (component.addMetadata key child.getText)

/-- Fold state of the `<component>` child loop: the builder plus the five
locale aggregates accumulated in locals by the source. -/
structure ComponentWalkState : Type where
  component : ComponentBuilder
  name : TranslatableString
  summary : TranslatableString
  developer_name : TranslatableString
  keywords : TranslatableList
  description : MarkupTranslatableString

/-- The per-tag dispatch of the `<component>` child loop (unrecognized tags
are silently skipped). -/
def componentArm (st : ComponentWalkState) (e : Element) :
    Conv ComponentWalkState :=
  match e.name with
  | "name" => pure { st with name := st.name.add_for_element e }
  | "summary" => pure { st with summary := st.summary.add_for_element e }
  | "developer_name" =>
    pure { st with developer_name := st.developer_name.add_for_element e }
  | "description" =>
    pure { st with description := st.description.add_for_element e }
  | "project_license" => do
    pure { st with component := st.component.setProjectLicense (← License.try_from e) }
  | "metadata_license" => do
    pure { st with component := st.component.setMetadataLicense (← License.try_from e) }
  | "icon" => do
    pure { st with component := st.component.icon (← Icon.try_from e) }
  | "update_contact" => do
    pure { st with component := st.component.setUpdateContact (← unwrapOp e.getText) }
  | "project_group" => do
    pure { st with component := st.component.setProjectGroup (← unwrapOp e.getText) }
  | "compulsory_for_desktop" => do
    pure { st with component :=
      st.component.setCompulsoryForDesktop (← unwrapOp e.getText) }
  | "pkgname" => do
    pure { st with component := st.component.setPkgname (← unwrapOp e.getText) }
  | "categories" => do
    pure { st with component := ← foldChildren categoriesStep st.component e.children }
  | "source_pkgname" => do
    pure { st with component := st.component.setSourcePkgname (← unwrapOp e.getText) }
  | "keywords" => do
    pure { st with keywords := ← foldChildren keywordsStep st.keywords e.children }
  | "kudos" => do
    pure { st with component := ← foldChildren kudosStep st.component e.children }
  | "mimetypes" => do
    pure { st with component := ← foldChildren mimetypesStep st.component e.children }
  | "screenshots" => do
    pure { st with component := ← foldChildren screenshotsStep st.component e.children }
  | "releases" => do
    pure { st with component := ← foldChildren releasesStep st.component e.children }
  | "extends" => do
    pure { st with component := st.component.extend (← AppId.try_from e) }
  | "translation" => do
    pure { st with component := st.component.translation (← Translation.try_from e) }
  | "launchable" => do
    pure { st with component := st.component.launchable (← Launchable.try_from e) }
  | "content_rating" => do
    pure { st with component := st.component.setContentRating (← ContentRating.try_from e) }
  | "languages" => do
    pure { st with component := ← foldChildren languagesStep st.component e.children }
  | "provides" => do
    pure { st with component := ← foldChildren providesStep st.component e.children }
  | "url" => do
    pure { st with component := st.component.url (← ProjectUrl.try_from e) }
  | "bundle" => do
    pure { st with component := st.component.bundle (← Bundle.try_from e) }
  | "suggests" => do
    pure { st with component := ← foldChildren suggestsStep st.component e.children }
  | "metadata" => do
    pure { st with component := ← foldChildren metadataStep st.component e.children }
  | _ => pure st

/-- One node of the `<component>` child loop (non-element nodes skipped). -/
def componentChildStep (st : ComponentWalkState) (n : XMLNode) :
    Conv ComponentWalkState :=
  match n with
  | .text _ => pure st
  | .element e => componentArm st e

/-- The `type` attribute block of `Component::try_from`. -/
def componentApplyKind (e : Element) (component : ComponentBuilder) :
    Conv ComponentBuilder :=
  match e.getAttr "type" with
  | some kind =>
    match ComponentKind.from_str kind with
    | some k => pure (component.setKind k)
    | none => throw (.err (.invalidValue kind "type" "component"))
  | none => pure component

/-- `TryFrom<&Element> for Component`: the `type` attribute first, then the
mandatory `<id>` child, then a single pass over all children, then
finalization through the builder. -/
def Component.try_from (e : Element) : Conv Component := do
  let component : ComponentBuilder := {}
  let component ← componentApplyKind e component
  let idEl ← okOr (e.getChild "id") (.missingTag "id")
  let app_id ← AppId.try_from idEl
  let st ← foldChildren componentChildStep
    { component := component, name := TranslatableString.default,
      summary := TranslatableString.default,
      developer_name := TranslatableString.default,
      keywords := TranslatableList.default,
      description := MarkupTranslatableString.default } e.children
  let component :=
    ((((((st.component.setName st.name).setSummary st.summary).setKeywords
      st.keywords).setDescription st.description).setDeveloperName
      st.developer_name).setId app_id)
  component.build

/-- One node of the collection child loop: only `<component>` elements are
converted, everything else is ignored. -/
def collectionChildStep (collection : CollectionBuilder) (n : XMLNode) :
    Conv CollectionBuilder :=
  match n with
  | .text _ => pure collection
  | .element e =>
    if e.name == "component" then do
      pure (collection.component (← Component.try_from e))
    else pure collection

/-- `TryFrom<&Element> for Collection`: the mandatory `version` attribute,
the optional `architecture` and `origin` (an empty `origin` is dropped), then
the top-level `<component>` children in document order. -/
def Collection.try_from (e : Element) : Conv Collection := do
  let version ← okOr (e.getAttr "version") (.missingAttribute "version" "collection")
  let collection := CollectionBuilder.new version
  let collection := match e.getAttr "architecture" with
    | some arch => collection.setArchitecture arch
    | none => collection
  let collection := match e.getAttr "origin" with
    | some origin =>
      if !origin.isEmpty then collection.setOrigin origin else collection
    | none => collection
  let collection ← foldChildren collectionChildStep collection e.children
  pure collection.build

/-! ## General lemmas about the conversion monad and the child folds -/

/-- `pure` in `Conv` is `.ok`. -/
theorem convPure {α : Type} (a : α) : (pure a : Conv α) = .ok a := rfl

/-- `throw` in `Conv` is `.error`. -/
theorem convThrow {α : Type} (f : Failure) : (throw f : Conv α) = .error f := rfl

/-- Bind on a success reduces. -/
theorem convBindOk {α β : Type} (a : α) (f : α → Conv β) :
    ((Except.ok a : Conv α) >>= f) = f a := rfl

/-- Bind on a failure propagates it. -/
theorem convBindErr {α β : Type} (e : Failure) (f : α → Conv β) :
    ((Except.error e : Conv α) >>= f) = .error e := rfl

/-- Inversion of a successful bind. -/
theorem convBindEqOk {α β : Type} {x : Conv α} {f : α → Conv β} {b : β}
    (h : (x >>= f) = .ok b) : ∃ a, x = .ok a ∧ f a = .ok b := by
  cases x with
  | ok a => exact ⟨a, rfl, h⟩
  | error e => exact absurd h (by simp [convBindErr])

/-- `okOr` on a present value. -/
theorem okOrSome {α : Type} (a : α) (err : ParseError) :
    okOr (some a) err = .ok a := rfl

/-- `okOr` on an absent value. -/
theorem okOrNone {α : Type} (err : ParseError) :
    (okOr none err : Conv α) = .error (.err err) := rfl

/-- A fold of the child loop preserves any state projection its step
preserves. -/
theorem foldChildren_ok_preserves {σ γ : Type} {f : σ → XMLNode → Conv σ}
    (P : σ → γ) (hf : ∀ s n s', f s n = .ok s' → P s' = P s) :
    ∀ {l : List XMLNode} {s s' : σ}, foldChildren f s l = .ok s' → P s' = P s := by
  intro l
  induction l with
  | nil => intro s s' h; cases h; rfl
  | cons n rest ih =>
    intro s s' h
    unfold foldChildren at h
    revert h
    cases hstep : f s n with
    | ok s1 =>
      intro h
      exact (ih h).trans (hf s n s1 hstep)
    | error e => intro h; cases h

/-! ## C7 — the content-rating version comparison -/

/-- C7 counterexample: in the `Ord` impl of `src/content_rating.rs` (the one
the legacy multiple-ratings picker sorts with), a known version compared
against `Unknown` yields `Less`, not the claimed `Greater`. -/
theorem C7_counterexample :
    ContentRatingVersion.cmpContentRatingRs .Oars1_0 .Unknown = .lt ∧
    ContentRatingVersion.cmpContentRatingRs .Oars1_0 .Unknown ≠ .gt := by
  exact ⟨rfl, by decide⟩

/-- C7 amended: the `src/content_rating.rs` comparison sends any pair with
`Unknown` on either side to `Less` (so `cmp(v, Unknown) = Less`, not
`Greater`); the duplicate `Ord` impl in `src/enums.rs` does satisfy the
originally claimed property, `cmp(Unknown, v) = Less` and
`cmp(v, Unknown) = Greater` for each known `v`. -/
theorem C7_amended :
    (ContentRatingVersion.cmpContentRatingRs .Unknown .Oars1_0 = .lt ∧
     ContentRatingVersion.cmpContentRatingRs .Unknown .Oars1_1 = .lt ∧
     ContentRatingVersion.cmpContentRatingRs .Oars1_0 .Unknown = .lt ∧
     ContentRatingVersion.cmpContentRatingRs .Oars1_1 .Unknown = .lt) ∧
    (ContentRatingVersion.cmpEnumsRs .Unknown .Oars1_0 = .lt ∧
     ContentRatingVersion.cmpEnumsRs .Unknown .Oars1_1 = .lt ∧
     ContentRatingVersion.cmpEnumsRs .Oars1_0 .Unknown = .gt ∧
     ContentRatingVersion.cmpEnumsRs .Oars1_1 .Unknown = .gt) := by
  decide

/-! ## C5 — `<launchable>` without a `type` attribute -/

/-- A `<launchable>` element with no attributes and a text payload. -/
def c5ex : Element := .mk "launchable" [] [.text "foo.desktop"]

/-- C5 counterexample: `Launchable::try_from` on a `<launchable>` without a
`type` attribute succeeds with the `Unknown` member — it does not return a
fatal error. -/
theorem C5_counterexample :
    c5ex.getAttr "type" = none ∧
    Launchable.try_from c5ex = .ok (.Unknown "foo.desktop") := ⟨rfl, rfl⟩

/-- C5 amended: for `<launchable>` the `type` attribute is *not* mandatory:
when it is absent the converter defaults the discriminator to `"unknown"`
and succeeds with `Launchable::Unknown` carrying the element's text. -/
theorem C5_amended (e : Element) (h : e.getAttr "type" = none) :
    Launchable.try_from e = .ok (.Unknown (e.getText.getD "")) := by
  unfold Launchable.try_from
  rw [h]
  cases e.getText <;> rfl

/-- C5 amended, witness at the concrete launchable element. -/
theorem C5_amended_witness :
    c5ex.getAttr "type" = none ∧
    Launchable.try_from c5ex = .ok (.Unknown (c5ex.getText.getD "")) :=
  ⟨rfl, C5_amended c5ex rfl⟩

/-! ## C6 — `<translation>` with an unrecognized `type` attribute -/

/-- A `<translation>` element with an unrecognized domain type. -/
def c6ex : Element := .mk "translation" [("type", "fluent")] [.text "app"]

/-- C6 counterexample: `Translation::try_from` on an unrecognized `type`
value fails with `InvalidValue` instead of succeeding with a fallback
member. -/
theorem C6_counterexample :
    Translation.try_from c6ex =
      .error (.err (.invalidValue "fluent" "type" "translation")) := rfl

/-- C6 amended: the translation domain type is a *strict* tag: any `type`
value other than `gettext` or `qt` is a fatal
`InvalidValue(value, "type", "translation")` (the `Translation::Unknown`
member exists in the vocabulary but is never produced by the converter). -/
theorem C6_amended (e : Element) (t : String) (h : e.getAttr "type" = some t)
    (h1 : t ≠ "gettext") (h2 : t ≠ "qt") :
    Translation.try_from e =
      .error (.err (.invalidValue t "type" "translation")) := by
  unfold Translation.try_from
  rw [h]
  simp only [convBindOk, convPure]
  rfl

/-- C6 amended, witness at the concrete translation element. -/
theorem C6_amended_witness :
    c6ex.getAttr "type" = some "fluent" ∧
    Translation.try_from c6ex =
      .error (.err (.invalidValue "fluent" "type" "translation")) :=
  ⟨rfl, C6_amended c6ex "fluent" rfl (by decide) (by decide)⟩

/-! ## C10 — the misattributed tag in the checksum missing-type error -/

/-- C10: for every `<checksum>` element that has text (so the converter gets
past its initial `unwrap`), a missing `type` attribute yields
`MissingAttribute("type", "provide")` — the diagnostic names the tag
`"provide"`, not `"checksum"` — while an unrecognized `type` value yields
`InvalidValue(value, "type", "checksum")`, correctly naming the tag. -/
theorem C10_checksum_error_tags (e : Element) (s : String)
    (hs : e.getText = some s) :
    (e.getAttr "type" = none →
      Checksum.try_from e = .error (.err (.missingAttribute "type" "provide"))) ∧
    (∀ t : String, e.getAttr "type" = some t →
      t ≠ "sha1" → t ≠ "sha256" → t ≠ "blake2b" → t ≠ "blake2s" →
      Checksum.try_from e = .error (.err (.invalidValue t "type" "checksum"))) := by
  constructor
  · intro hattr
    unfold Checksum.try_from unwrapOp
    rw [hs, hattr]
    rfl
  · intro t hattr h1 h2 h3 h4
    unfold Checksum.try_from unwrapOp
    rw [hs, hattr]
    simp only [convBindOk, convPure]
    rfl

/-- A `<checksum>` element with text and no `type` attribute. -/
def c10ex : Element := .mk "checksum" [] [.text "aabbcc"]

/-- A `<checksum>` element with text and an unrecognized `type` attribute. -/
def c10ex' : Element := .mk "checksum" [("type", "md5")] [.text "aabbcc"]

/-- C10 witness at concrete checksum elements, for both halves. -/
theorem C10_checksum_error_tags_witness :
    (Checksum.try_from c10ex =
      .error (.err (.missingAttribute "type" "provide"))) ∧
    (Checksum.try_from c10ex' =
      .error (.err (.invalidValue "md5" "type" "checksum"))) :=
  ⟨(C10_checksum_error_tags c10ex "aabbcc" rfl).1 rfl,
   (C10_checksum_error_tags c10ex' "aabbcc" rfl).2 "md5" rfl
     (by decide) (by decide) (by decide) (by decide)⟩

/-! ## C4 — a component without an `<id>` child -/

/-- C4: for every `<component>` element with no `<id>` child — whatever its
other children are — whose `type` attribute is absent or names a recognized
component kind, `Component::try_from` returns the structured, recoverable
error `MissingTag("id")` (an `Except.error` carrying a `ParseError`, never a
panic). -/
theorem C4_missing_id (e : Element)
    (hkind : e.getAttr "type" = none ∨
      ∃ s k, e.getAttr "type" = some s ∧ ComponentKind.from_str s = some k)
    (hid : e.getChild "id" = none) :
    Component.try_from e = .error (.err (.missingTag "id")) := by
  rcases hkind with hattr | ⟨s, k, hattr, hk⟩
  · simp only [Component.try_from, componentApplyKind, hattr, hid]
    rfl
  · simp only [Component.try_from, componentApplyKind, hattr, hk, hid]
    rfl

/-- A `<component>` element with a `<name>` child but no `<id>` child. -/
def c4ex : Element :=
  .mk "component" [] [.element (.mk "name" [] [.text "Foo"])]

/-- C4 witness at a concrete component element lacking `<id>`. -/
theorem C4_missing_id_witness :
    Component.try_from c4ex = .error (.err (.missingTag "id")) :=
  C4_missing_id c4ex (Or.inl rfl) rfl

/-! ## C2 — collection conversion is fail-fast -/

/-- Walking a child list whose prefix converts cleanly stops at the first
failing `<component>` and propagates exactly its failure. -/
theorem collectionFold_first_error (bad : Element) (hbad : bad.name = "component")
    (f : Failure) (hf : Component.try_from bad = .error f) (n₂ : List XMLNode) :
    ∀ n₁ : List XMLNode,
      (∀ el : Element, XMLNode.element el ∈ n₁ → el.name = "component" →
        ∃ c, Component.try_from el = .ok c) →
      ∀ st : CollectionBuilder,
        foldChildren collectionChildStep st (n₁ ++ XMLNode.element bad :: n₂) =
          .error f := by
  intro n₁
  induction n₁ with
  | nil =>
    intro _ st
    have hstep : collectionChildStep st (XMLNode.element bad) = .error f := by
      simp only [collectionChildStep, hbad, beq_self_eq_true, if_true, hf,
        convBindErr]
    simp only [List.nil_append]
    unfold foldChildren
    rw [hstep]
  | cons n rest ih =>
    intro hok st
    simp only [List.cons_append]
    unfold foldChildren
    cases n with
    | text s =>
      have hstep : collectionChildStep st (XMLNode.text s) = .ok st := rfl
      rw [hstep]
      exact ih (fun el h h' => hok el (List.mem_cons_of_mem _ h) h') st
    | element el =>
      by_cases hel : el.name = "component"
      · obtain ⟨c, hc⟩ := hok el (List.mem_cons_self _ _) hel
        have hstep : collectionChildStep st (XMLNode.element el) =
            .ok (st.component c) := by
          simp only [collectionChildStep, hel, beq_self_eq_true, if_true, hc,
            convBindOk, convPure]
        rw [hstep]
        exact ih (fun el' h h' => hok el' (List.mem_cons_of_mem _ h) h') _
      · have hstep : collectionChildStep st (XMLNode.element el) = .ok st := by
          simp only [collectionChildStep, beq_iff_eq, hel, if_false]
          rfl
        rw [hstep]
        exact ih (fun el' h h' => hok el' (List.mem_cons_of_mem _ h) h') st

/-- C2: for every document element with a `version` attribute whose
`<component>` children begin with a cleanly converting prefix followed by a
component whose conversion fails, `Collection::try_from` returns exactly that
first failure — no `Collection` value (in particular no partial collection)
is ever produced. -/
theorem C2_collection_fail_fast (e : Element) (v : String)
    (hv : e.getAttr "version" = some v)
    (n₁ n₂ : List XMLNode) (bad : Element) (f : Failure)
    (hchildren : e.children = n₁ ++ XMLNode.element bad :: n₂)
    (hbad : bad.name = "component")
    (hok : ∀ el : Element, XMLNode.element el ∈ n₁ → el.name = "component" →
      ∃ c, Component.try_from el = .ok c)
    (hf : Component.try_from bad = .error f) :
    Collection.try_from e = .error f := by
  unfold Collection.try_from
  rw [hv, hchildren]
  simp only [okOrSome, convBindOk, convPure]
  rw [collectionFold_first_error bad hbad f hf n₂ n₁ hok _]
  rfl

/-- A valid `<component>` (just an `<id>`). -/
def c2good : Element :=
  .mk "component" [] [.element (.mk "id" [] [.text "good.app"])]

/-- A `<component>` with no `<id>` child: its conversion fails. -/
def c2bad : Element := .mk "component" [] []

/-- A collection document: a version, one valid component, then one failing
component. -/
def c2ex : Element :=
  .mk "components" [("version", "0.8")] [.element c2good, .element c2bad]

/-- C2 witness: one valid component followed by one missing-`id` component
yields the single component-level error and no collection. -/
theorem C2_collection_fail_fast_witness :
    Collection.try_from c2ex = .error (.err (.missingTag "id")) :=
  C2_collection_fail_fast c2ex "0.8" rfl [XMLNode.element c2good] [] c2bad
    (.err (.missingTag "id")) rfl rfl
    (by
      intro el hmem _
      simp only [List.mem_singleton, XMLNode.element.injEq] at hmem
      subst hmem
      exact ⟨_, rfl⟩)
    rfl

/-! ## C8 — release date resolution -/

/-- `releaseApplyDate` never touches `date_eol`. -/
theorem releaseApplyDate_eol (e : Element) (r r' : ReleaseBuilder)
    (h : releaseApplyDate e r = .ok r') : r'.date_eol = r.date_eol := by
  unfold releaseApplyDate at h
  split at h
  · split at h
    · have h' := Except.ok.inj h; subst h'; rfl
    · exact Except.noConfusion h
  · have h' := Except.ok.inj h; subst h'; rfl

/-- `releaseApplyTimestamp` never touches `date_eol`. -/
theorem releaseApplyTimestamp_eol (e : Element) (r r' : ReleaseBuilder)
    (h : releaseApplyTimestamp e r = .ok r') : r'.date_eol = r.date_eol := by
  unfold releaseApplyTimestamp at h
  split at h
  · split at h
    · have h' := Except.ok.inj h; subst h'; rfl
    · exact Except.noConfusion h
  · have h' := Except.ok.inj h; subst h'; rfl

/-- `releaseApplyDateEol` never touches `date`. -/
theorem releaseApplyDateEol_date (e : Element) (r r' : ReleaseBuilder)
    (h : releaseApplyDateEol e r = .ok r') : r'.date = r.date := by
  unfold releaseApplyDateEol at h
  split at h
  · split at h
    · have h' := Except.ok.inj h; subst h'; rfl
    · exact Except.noConfusion h
  · have h' := Except.ok.inj h; subst h'; rfl

/-- `releaseApplyUrgency` touches neither date field. -/
theorem releaseApplyUrgency_dates (e : Element) (r r' : ReleaseBuilder)
    (h : releaseApplyUrgency e r = .ok r') :
    r'.date = r.date ∧ r'.date_eol = r.date_eol := by
  unfold releaseApplyUrgency at h
  split at h
  · split at h
    · have h' := Except.ok.inj h; subst h'; exact ⟨rfl, rfl⟩
    · exact Except.noConfusion h
  · have h' := Except.ok.inj h; subst h'; exact ⟨rfl, rfl⟩

/-- `releaseApplyKind` touches neither date field. -/
theorem releaseApplyKind_dates (e : Element) (r r' : ReleaseBuilder)
    (h : releaseApplyKind e r = .ok r') :
    r'.date = r.date ∧ r'.date_eol = r.date_eol := by
  unfold releaseApplyKind at h
  split at h
  · split at h
    · have h' := Except.ok.inj h; subst h'; exact ⟨rfl, rfl⟩
    · exact Except.noConfusion h
  · have h' := Except.ok.inj h; subst h'; exact ⟨rfl, rfl⟩

/-- The `<artifacts>` inner loop touches neither date field. -/
theorem releaseArtifactsStep_dates (r : ReleaseBuilder) (n : XMLNode)
    (r' : ReleaseBuilder) (h : releaseArtifactsStep r n = .ok r') :
    r'.date = r.date ∧ r'.date_eol = r.date_eol := by
  unfold releaseArtifactsStep at h
  obtain ⟨el, _, h⟩ := convBindEqOk h
  obtain ⟨a, _, h⟩ := convBindEqOk h
  have h' := Except.ok.inj h; subst h'; exact ⟨rfl, rfl⟩

/-- The `<release>` child loop touches neither date field of its builder. -/
theorem releaseChildStep_dates (s : ReleaseWalkState) (n : XMLNode)
    (s' : ReleaseWalkState) (h : releaseChildStep s n = .ok s') :
    s'.release.date = s.release.date ∧
    s'.release.date_eol = s.release.date_eol := by
  cases n with
  | text t =>
    have h' := Except.ok.inj h; subst h'; exact ⟨rfl, rfl⟩
  | element c =>
    simp only [releaseChildStep] at h
    split at h
    · -- artifacts
      obtain ⟨rr, hrr, h⟩ := convBindEqOk h
      have h' := Except.ok.inj h; subst h'
      refine ⟨?_, ?_⟩
      · exact foldChildren_ok_preserves (fun r : ReleaseBuilder => r.date)
          (fun r n r' hh => (releaseArtifactsStep_dates r n r' hh).1) hrr
      · exact foldChildren_ok_preserves (fun r : ReleaseBuilder => r.date_eol)
          (fun r n r' hh => (releaseArtifactsStep_dates r n r' hh).2) hrr
    · -- size
      obtain ⟨sz, _, h⟩ := convBindEqOk h
      have h' := Except.ok.inj h; subst h'; exact ⟨rfl, rfl⟩
    · -- description
      have h' := Except.ok.inj h; subst h'; exact ⟨rfl, rfl⟩
    · -- url
      obtain ⟨t, _, h⟩ := convBindEqOk h
      obtain ⟨u, _, h⟩ := convBindEqOk h
      have h' := Except.ok.inj h; subst h'; exact ⟨rfl, rfl⟩
    · -- unrecognized tag
      have h' := Except.ok.inj h; subst h'; exact ⟨rfl, rfl⟩

/-- Finalizing a release keeps both builder date fields. -/
theorem setDescription_build_dates (b : ReleaseBuilder)
    (d : MarkupTranslatableString) :
    ((b.setDescription d).build).date = b.date ∧
    ((b.setDescription d).build).date_eol = b.date_eol := by
  unfold ReleaseBuilder.setDescription ReleaseBuilder.build
  split <;> exact ⟨rfl, rfl⟩

/-- C8: the release date resolution order. (i) a string recognized as a Unix
timestamp resolves to it directly; (ii) otherwise the string is resolved as
an ISO calendar date taken at midnight UTC (86400 seconds per day); (iii) a
`timestamp` attribute is an alias for `date`: it is parsed the same way and
lands in the release's `date` field; (iv) without a `timestamp` attribute,
the `date` attribute lands in the `date` field; (v) `date_eol` is resolved
independently by the same procedure into the `date_eol` field. -/
theorem C8_date_resolution :
    (∀ s : String, ∀ t : Int, parseUnixTimestamp s = some t →
      deserialize_date s = some t) ∧
    (∀ s : String, parseUnixTimestamp s = none →
      deserialize_date s = (parseNaiveDate s).map (fun days => days * 86400)) ∧
    (∀ e : Element, ∀ r : Release, ∀ ts : String, ∀ t : DateTime,
      e.getAttr "timestamp" = some ts → deserialize_date ts = some t →
      Release.try_from e = .ok r → r.date = some t) ∧
    (∀ e : Element, ∀ r : Release, ∀ d : String, ∀ t : DateTime,
      e.getAttr "date" = some d → e.getAttr "timestamp" = none →
      deserialize_date d = some t →
      Release.try_from e = .ok r → r.date = some t) ∧
    (∀ e : Element, ∀ r : Release, ∀ d : String, ∀ t : DateTime,
      e.getAttr "date_eol" = some d → deserialize_date d = some t →
      Release.try_from e = .ok r → r.date_eol = some t) := by
  refine ⟨?_, ?_, ?_, ?_, ?_⟩
  · intro s t h
    unfold deserialize_date
    rw [h]
  · intro s h
    unfold deserialize_date
    rw [h]
  · intro e r ts t hts hparse h
    unfold Release.try_from at h
    obtain ⟨v, hv, h⟩ := convBindEqOk h
    obtain ⟨r1, h1, h⟩ := convBindEqOk h
    obtain ⟨r2, h2, h⟩ := convBindEqOk h
    obtain ⟨r3, h3, h⟩ := convBindEqOk h
    obtain ⟨r4, h4, h⟩ := convBindEqOk h
    obtain ⟨r5, h5, h⟩ := convBindEqOk h
    obtain ⟨st, hst, h⟩ := convBindEqOk h
    have hr := Except.ok.inj h
    have h2' : r2 = r1.setDate t := by
      simp only [releaseApplyTimestamp, hts, hparse, convPure] at h2
      exact (Except.ok.inj h2).symm
    have hd2 : r2.date = some t := by rw [h2']; rfl
    have hd3 := releaseApplyDateEol_date e r2 r3 h3
    have hd4 := (releaseApplyUrgency_dates e r3 r4 h4).1
    have hd5 := (releaseApplyKind_dates e r4 r5 h5).1
    have hdst : st.release.date = r5.date :=
      foldChildren_ok_preserves (fun s : ReleaseWalkState => s.release.date)
        (fun s n s' hh => (releaseChildStep_dates s n s' hh).1) hst
    have hbuild := (setDescription_build_dates st.release st.description).1
    rw [← hr, hbuild, hdst, hd5, hd4, hd3, hd2]
  · intro e r d t hd hts hparse h
    unfold Release.try_from at h
    obtain ⟨v, hv, h⟩ := convBindEqOk h
    obtain ⟨r1, h1, h⟩ := convBindEqOk h
    obtain ⟨r2, h2, h⟩ := convBindEqOk h
    obtain ⟨r3, h3, h⟩ := convBindEqOk h
    obtain ⟨r4, h4, h⟩ := convBindEqOk h
    obtain ⟨r5, h5, h⟩ := convBindEqOk h
    obtain ⟨st, hst, h⟩ := convBindEqOk h
    have hr := Except.ok.inj h
    have h1' : r1 = (ReleaseBuilder.new v).setDate t := by
      simp only [releaseApplyDate, hd, hparse, convPure] at h1
      exact (Except.ok.inj h1).symm
    have h2' : r2 = r1 := by
      simp only [releaseApplyTimestamp, hts, convPure] at h2
      exact (Except.ok.inj h2).symm
    have hd2 : r2.date = some t := by rw [h2', h1']; rfl
    have hd3 := releaseApplyDateEol_date e r2 r3 h3
    have hd4 := (releaseApplyUrgency_dates e r3 r4 h4).1
    have hd5 := (releaseApplyKind_dates e r4 r5 h5).1
    have hdst : st.release.date = r5.date :=
      foldChildren_ok_preserves (fun s : ReleaseWalkState => s.release.date)
        (fun s n s' hh => (releaseChildStep_dates s n s' hh).1) hst
    have hbuild := (setDescription_build_dates st.release st.description).1
    rw [← hr, hbuild, hdst, hd5, hd4, hd3, hd2]
  · intro e r d t hde hparse h
    unfold Release.try_from at h
    obtain ⟨v, hv, h⟩ := convBindEqOk h
    obtain ⟨r1, h1, h⟩ := convBindEqOk h
    obtain ⟨r2, h2, h⟩ := convBindEqOk h
    obtain ⟨r3, h3, h⟩ := convBindEqOk h
    obtain ⟨r4, h4, h⟩ := convBindEqOk h
    obtain ⟨r5, h5, h⟩ := convBindEqOk h
    obtain ⟨st, hst, h⟩ := convBindEqOk h
    have hr := Except.ok.inj h
    have h3' : r3 = r2.setDateEol t := by
      simp only [releaseApplyDateEol, hde, hparse, convPure] at h3
      exact (Except.ok.inj h3).symm
    have hd3 : r3.date_eol = some t := by rw [h3']; rfl
    have hd4 := (releaseApplyUrgency_dates e r3 r4 h4).2
    have hd5 := (releaseApplyKind_dates e r4 r5 h5).2
    have hdst : st.release.date_eol = r5.date_eol :=
      foldChildren_ok_preserves (fun s : ReleaseWalkState => s.release.date_eol)
        (fun s n s' hh => (releaseChildStep_dates s n s' hh).2) hst
    have hbuild := (setDescription_build_dates st.release st.description).2
    rw [← hr, hbuild, hdst, hd5, hd4, hd3]

/-- A `<release>` with a Unix `timestamp` attribute. -/
def c8rel1 : Element :=
  .mk "release" [("version", "1.2"), ("timestamp", "1397253600")] []

/-- The release parsed from `c8rel1`. -/
def c8r1 : Release :=
  { date := some 1397253600, date_eol := none, version := "1.2",
    description := none, kind := .Stable, sizes := [], urgency := .Medium,
    artifacts := [], url := none }

/-- A `<release>` with ISO `date` and `date_eol` attributes. -/
def c8rel2 : Element :=
  .mk "release" [("version", "1.0"), ("date", "2012-08-26"),
    ("date_eol", "2014-04-12")] []

/-- The release parsed from `c8rel2` (both dates at midnight UTC). -/
def c8r2 : Release :=
  { date := some 1345939200, date_eol := some 1397260800, version := "1.0",
    description := none, kind := .Stable, sizes := [], urgency := .Medium,
    artifacts := [], url := none }

/-- C8 witness: concrete resolutions — a Unix timestamp string, an ISO date
string, and releases resolving `timestamp`, `date` and `date_eol`
attributes. -/
theorem C8_date_resolution_witness :
    deserialize_date "1397253600" = some 1397253600 ∧
    deserialize_date "2012-08-26" = some 1345939200 ∧
    c8r1.date = some 1397253600 ∧
    c8r2.date = some 1345939200 ∧
    c8r2.date_eol = some 1397260800 := by
  refine ⟨C8_date_resolution.1 "1397253600" 1397253600 rfl,
    (C8_date_resolution.2.1 "2012-08-26" rfl).trans rfl,
    C8_date_resolution.2.2.1 c8rel1 c8r1 "1397253600" 1397253600 rfl rfl rfl,
    C8_date_resolution.2.2.2.1 c8rel2 c8r2 "2012-08-26" 1345939200 rfl rfl rfl
      rfl,
    C8_date_resolution.2.2.2.2 c8rel2 c8r2 "2014-04-12" 1397260800 rfl rfl rfl⟩

/-! ## C9 — locale aggregation -/

/-- The locale key a sibling element aggregates under: its `lang` attribute,
or the reserved default key. -/
def localeKey (el : Element) : String :=
  (el.getAttr "lang").getD DEFAULT_LOCALE

/-- The value a sibling element aggregates: its flattened text, or `""`. -/
def localeText (el : Element) : String :=
  el.getText.getD ""

/-- A sibling with a `lang="C"` attribute: its key collides with the
reserved default key. -/
def c9tagged : Element := .mk "name" [("lang", "C")] [.text "a"]

/-- An untagged sibling: it aggregates under the reserved default key. -/
def c9untagged : Element := .mk "name" [] [.text "b"]

/-- C9 counterexample: N = 1 sibling with the (trivially pairwise-distinct)
locale attribute `"C"` plus one untagged sibling yield a map with **one**
entry, not the claimed N + 1 = 2: the tagged sibling's key collides with the
reserved default key and the later value overwrites the earlier one. -/
theorem C9_counterexample :
    c9tagged.getAttr "lang" = some "C" ∧
    c9untagged.getAttr "lang" = none ∧
    ((TranslatableString.default.add_for_element c9tagged).add_for_element
        c9untagged).map.length = 1 :=
  ⟨rfl, rfl, rfl⟩

/-- Inserting a fresh key appends the binding. -/
theorem mapInsert_fresh {α : Type} (m : List (String × α)) (k : String) (v : α)
    (h : m.all (fun p => p.1 ≠ k)) : mapInsert m k v = m ++ [(k, v)] := by
  have hc : ¬(m.any (fun p => p.1 == k) = true) := by
    intro hc
    obtain ⟨p, hp, hpk⟩ := List.any_eq_true.mp hc
    have h2 := List.all_eq_true.mp h p hp
    simp only [decide_eq_true_eq] at h2
    exact h2 (by simpa using hpk)
  unfold mapInsert
  rw [if_neg hc]

/-- Aggregating siblings whose keys are fresh and pairwise distinct appends
one binding per sibling, in order. -/
theorem addForElement_fold (es : List Element) :
    ∀ m : List (String × String),
      (es.map localeKey).Nodup →
      (∀ el ∈ es, m.all (fun p => p.1 ≠ localeKey el)) →
      (es.foldl TranslatableString.add_for_element ⟨m⟩).map =
        m ++ es.map (fun el => (localeKey el, localeText el)) := by
  induction es with
  | nil => intro m _ _; simp
  | cons el rest ih =>
    intro m hnd hfresh
    have hins : (TranslatableString.add_for_element ⟨m⟩ el).map =
        m ++ [(localeKey el, localeText el)] := by
      unfold TranslatableString.add_for_element TranslatableString.add_for_locale
      exact mapInsert_fresh m _ _ (hfresh el (List.mem_cons_self _ _))
    have hstep : rest.foldl TranslatableString.add_for_element
        (TranslatableString.add_for_element ⟨m⟩ el) =
        rest.foldl TranslatableString.add_for_element
          ⟨m ++ [(localeKey el, localeText el)]⟩ := by
      congr 1
      cases h' : TranslatableString.add_for_element ⟨m⟩ el with
      | mk mm => simp only [h'] at hins ⊢; rw [← hins]
    rw [List.foldl_cons, hstep,
      ih (m ++ [(localeKey el, localeText el)]) (List.Nodup.of_cons hnd) ?_]
    · simp
    · intro el' hel'
      rw [List.all_append, Bool.and_eq_true]
      refine ⟨hfresh el' (List.mem_cons_of_mem _ hel'), ?_⟩
      simp only [List.all_cons, List.all_nil, Bool.and_true, decide_eq_true_eq]
      intro hk
      have hmm : localeKey el' ∈ rest.map localeKey := List.mem_map_of_mem _ hel'
      rw [← hk] at hmm
      exact (List.nodup_cons.mp hnd).1 hmm

/-- Looking a key up in an appended pair list built from distinct keys finds
that key's value. -/
theorem mapLookup_pairs (es : List Element) (el : Element)
    (hmem : el ∈ es) (hnd : (es.map localeKey).Nodup) :
    mapLookup (es.map fun el' => (localeKey el', localeText el'))
      (localeKey el) = some (localeText el) := by
  induction es with
  | nil => cases hmem
  | cons hd rest ih =>
    rcases List.mem_cons.mp hmem with rfl | hmem'
    · unfold mapLookup
      simp
    · have hne : localeKey hd ≠ localeKey el := by
        intro hk
        exact (List.nodup_cons.mp hnd).1 (hk ▸ List.mem_map_of_mem _ hmem')
      unfold mapLookup at ih ⊢
      simp only [List.map_cons, List.find?_cons]
      have hbeq : (localeKey hd == localeKey el) = false := by
        simpa using hne
      rw [hbeq]
      exact ih hmem' (List.nodup_cons.mp hnd).2

/-- C9 amended: for N ≥ 0 sibling elements whose locale keys (the `lang`
attribute, or the reserved default key when untagged — so: pairwise-distinct
locale attributes none of which equals the reserved default key `"C"`, plus
at most one untagged sibling) are pairwise distinct, aggregation yields a
locale map with exactly N entries, each sibling's value stored under its own
key. Without the no-`"C"`-attribute proviso the count claim fails (see the
counterexample). -/
theorem C9_amended (es : List Element) (hnd : (es.map localeKey).Nodup) :
    (es.foldl TranslatableString.add_for_element
      TranslatableString.default).map.length = es.length ∧
    ∀ el ∈ es,
      mapLookup (es.foldl TranslatableString.add_for_element
        TranslatableString.default).map (localeKey el) =
        some (localeText el) := by
  have hfold := addForElement_fold es [] hnd (by intro el _; rfl)
  constructor
  · rw [show TranslatableString.default = (⟨[]⟩ : TranslatableString) from rfl,
      hfold]
    simp
  · intro el hmem
    rw [show TranslatableString.default = (⟨[]⟩ : TranslatableString) from rfl,
      hfold]
    simpa using mapLookup_pairs es el hmem hnd

/-- Two siblings with distinct locale keys (`fr` and the default key). -/
def c9fr : Element := .mk "name" [("lang", "fr")] [.text "Bonjour"]

/-- C9 amended, witness: the two-sibling aggregate has two entries, keyed by
`"fr"` and the default key. -/
theorem C9_amended_witness :
    ([c9fr, c9untagged].foldl TranslatableString.add_for_element
      TranslatableString.default).map.length = 2 ∧
    mapLookup ([c9fr, c9untagged].foldl TranslatableString.add_for_element
      TranslatableString.default).map "fr" = some "Bonjour" ∧
    mapLookup ([c9fr, c9untagged].foldl TranslatableString.add_for_element
      TranslatableString.default).map "C" = some "b" := by
  refine ⟨(C9_amended [c9fr, c9untagged] (by decide)).1, ?_, ?_⟩
  · exact (C9_amended [c9fr, c9untagged] (by decide)).2 c9fr
      (List.mem_cons_self _ _)
  · exact (C9_amended [c9fr, c9untagged] (by decide)).2 c9untagged
      (by simp)

/-! ## C1 and C3 — effects of the component child walk -/

/-- `categoriesStep` never touches the builder's content-rating field. -/
theorem categoriesStep_cr (b : ComponentBuilder) (n : XMLNode)
    (b' : ComponentBuilder) (h : categoriesStep b n = .ok b') :
    b'.content_rating = b.content_rating := by
  unfold categoriesStep at h
  obtain ⟨_, _, h⟩ := convBindEqOk h
  obtain ⟨_, _, h⟩ := convBindEqOk h
  have h' := Except.ok.inj h; subst h'; rfl

/-- `kudosStep` never touches the builder's content-rating field. -/
theorem kudosStep_cr (b : ComponentBuilder) (n : XMLNode)
    (b' : ComponentBuilder) (h : kudosStep b n = .ok b') :
    b'.content_rating = b.content_rating := by
  unfold kudosStep at h
  obtain ⟨_, _, h⟩ := convBindEqOk h
  obtain ⟨_, _, h⟩ := convBindEqOk h
  have h' := Except.ok.inj h; subst h'; rfl

/-- `mimetypesStep` never touches the builder's content-rating field. -/
theorem mimetypesStep_cr (b : ComponentBuilder) (n : XMLNode)
    (b' : ComponentBuilder) (h : mimetypesStep b n = .ok b') :
    b'.content_rating = b.content_rating := by
  unfold mimetypesStep at h
  obtain ⟨_, _, h⟩ := convBindEqOk h
  obtain ⟨_, _, h⟩ := convBindEqOk h
  have h' := Except.ok.inj h; subst h'; rfl

/-- `screenshotsStep` never touches the builder's content-rating field. -/
theorem screenshotsStep_cr (b : ComponentBuilder) (n : XMLNode)
    (b' : ComponentBuilder) (h : screenshotsStep b n = .ok b') :
    b'.content_rating = b.content_rating := by
  unfold screenshotsStep at h
  obtain ⟨_, _, h⟩ := convBindEqOk h
  obtain ⟨_, _, h⟩ := convBindEqOk h
  have h' := Except.ok.inj h; subst h'; rfl

/-- `releasesStep` never touches the builder's content-rating field. -/
theorem releasesStep_cr (b : ComponentBuilder) (n : XMLNode)
    (b' : ComponentBuilder) (h : releasesStep b n = .ok b') :
    b'.content_rating = b.content_rating := by
  unfold releasesStep at h
  obtain ⟨_, _, h⟩ := convBindEqOk h
  obtain ⟨_, _, h⟩ := convBindEqOk h
  have h' := Except.ok.inj h; subst h'; rfl

/-- `languagesStep` never touches the builder's content-rating field. -/
theorem languagesStep_cr (b : ComponentBuilder) (n : XMLNode)
    (b' : ComponentBuilder) (h : languagesStep b n = .ok b') :
    b'.content_rating = b.content_rating := by
  unfold languagesStep at h
  obtain ⟨_, _, h⟩ := convBindEqOk h
  obtain ⟨_, _, h⟩ := convBindEqOk h
  have h' := Except.ok.inj h; subst h'; rfl

/-- `providesStep` never touches the builder's content-rating field. -/
theorem providesStep_cr (b : ComponentBuilder) (n : XMLNode)
    (b' : ComponentBuilder) (h : providesStep b n = .ok b') :
    b'.content_rating = b.content_rating := by
  unfold providesStep at h
  obtain ⟨_, _, h⟩ := convBindEqOk h
  obtain ⟨_, _, h⟩ := convBindEqOk h
  have h' := Except.ok.inj h; subst h'; rfl

/-- `suggestsStep` never touches the builder's content-rating field. -/
theorem suggestsStep_cr (b : ComponentBuilder) (n : XMLNode)
    (b' : ComponentBuilder) (h : suggestsStep b n = .ok b') :
    b'.content_rating = b.content_rating := by
  unfold suggestsStep at h
  obtain ⟨_, _, h⟩ := convBindEqOk h
  obtain ⟨_, _, h⟩ := convBindEqOk h
  have h' := Except.ok.inj h; subst h'; rfl

/-- `metadataStep` never touches the builder's content-rating field. -/
theorem metadataStep_cr (b : ComponentBuilder) (n : XMLNode)
    (b' : ComponentBuilder) (h : metadataStep b n = .ok b') :
    b'.content_rating = b.content_rating := by
  unfold metadataStep at h
  obtain ⟨_, _, h⟩ := convBindEqOk h
  obtain ⟨_, _, h⟩ := convBindEqOk h
  have h' := Except.ok.inj h; subst h'; rfl

/-- Effects of one dispatched child on the builder's content-rating field
and on the name aggregate: only the `content_rating` arm writes the former,
only the `name` arm the latter. -/
theorem componentArm_cr_name (st : ComponentWalkState) (e : Element)
    (st' : ComponentWalkState) (h : componentArm st e = .ok st') :
    (e.name ≠ "content_rating" →
    st'.component.content_rating = st.component.content_rating) ∧
    (e.name ≠ "name" → st'.name = st.name) := by
  unfold componentArm at h
  split at h
  · -- the name arm: the first conjunct holds, the second is vacuous
    have h' := Except.ok.inj h; subst h'
    exact ⟨fun _ => rfl, fun hne => by simp_all⟩
  · have h' := Except.ok.inj h; subst h'
    exact ⟨fun _ => rfl, fun _ => rfl⟩
  · have h' := Except.ok.inj h; subst h'
    exact ⟨fun _ => rfl, fun _ => rfl⟩
  · have h' := Except.ok.inj h; subst h'
    exact ⟨fun _ => rfl, fun _ => rfl⟩
  · obtain ⟨_, _, h⟩ := convBindEqOk h
    have h' := Except.ok.inj h; subst h'
    exact ⟨fun _ => rfl, fun _ => rfl⟩
  · obtain ⟨_, _, h⟩ := convBindEqOk h
    have h' := Except.ok.inj h; subst h'
    exact ⟨fun _ => rfl, fun _ => rfl⟩
  · obtain ⟨_, _, h⟩ := convBindEqOk h
    have h' := Except.ok.inj h; subst h'
    exact ⟨fun _ => rfl, fun _ => rfl⟩
  · obtain ⟨_, _, h⟩ := convBindEqOk h
    have h' := Except.ok.inj h; subst h'
    exact ⟨fun _ => rfl, fun _ => rfl⟩
  · obtain ⟨_, _, h⟩ := convBindEqOk h
    have h' := Except.ok.inj h; subst h'
    exact ⟨fun _ => rfl, fun _ => rfl⟩
  · obtain ⟨_, _, h⟩ := convBindEqOk h
    have h' := Except.ok.inj h; subst h'
    exact ⟨fun _ => rfl, fun _ => rfl⟩
  · obtain ⟨_, _, h⟩ := convBindEqOk h
    have h' := Except.ok.inj h; subst h'
    exact ⟨fun _ => rfl, fun _ => rfl⟩
  · obtain ⟨c', hc', h⟩ := convBindEqOk h
    have h' := Except.ok.inj h; subst h'
    refine ⟨fun _ => ?_, fun _ => rfl⟩
    exact foldChildren_ok_preserves (fun b : ComponentBuilder => b.content_rating)
        categoriesStep_cr hc'
  · obtain ⟨_, _, h⟩ := convBindEqOk h
    have h' := Except.ok.inj h; subst h'
    exact ⟨fun _ => rfl, fun _ => rfl⟩
  · obtain ⟨_, _, h⟩ := convBindEqOk h
    have h' := Except.ok.inj h; subst h'
    exact ⟨fun _ => rfl, fun _ => rfl⟩
  · obtain ⟨c', hc', h⟩ := convBindEqOk h
    have h' := Except.ok.inj h; subst h'
    refine ⟨fun _ => ?_, fun _ => rfl⟩
    exact foldChildren_ok_preserves (fun b : ComponentBuilder => b.content_rating)
        kudosStep_cr hc'
  · obtain ⟨c', hc', h⟩ := convBindEqOk h
    have h' := Except.ok.inj h; subst h'
    refine ⟨fun _ => ?_, fun _ => rfl⟩
    exact foldChildren_ok_preserves (fun b : ComponentBuilder => b.content_rating)
        mimetypesStep_cr hc'
  · obtain ⟨c', hc', h⟩ := convBindEqOk h
    have h' := Except.ok.inj h; subst h'
    refine ⟨fun _ => ?_, fun _ => rfl⟩
    exact foldChildren_ok_preserves (fun b : ComponentBuilder => b.content_rating)
        screenshotsStep_cr hc'
  · obtain ⟨c', hc', h⟩ := convBindEqOk h
    have h' := Except.ok.inj h; subst h'
    refine ⟨fun _ => ?_, fun _ => rfl⟩
    exact foldChildren_ok_preserves (fun b : ComponentBuilder => b.content_rating)
        releasesStep_cr hc'
  · obtain ⟨_, _, h⟩ := convBindEqOk h
    have h' := Except.ok.inj h; subst h'
    exact ⟨fun _ => rfl, fun _ => rfl⟩
  · obtain ⟨_, _, h⟩ := convBindEqOk h
    have h' := Except.ok.inj h; subst h'
    exact ⟨fun _ => rfl, fun _ => rfl⟩
  · obtain ⟨_, _, h⟩ := convBindEqOk h
    have h' := Except.ok.inj h; subst h'
    exact ⟨fun _ => rfl, fun _ => rfl⟩
  · -- the content_rating arm: the first conjunct is vacuous
    obtain ⟨r, hr, h⟩ := convBindEqOk h
    have h' := Except.ok.inj h; subst h'
    exact ⟨fun hne => by simp_all, fun _ => rfl⟩
  · obtain ⟨c', hc', h⟩ := convBindEqOk h
    have h' := Except.ok.inj h; subst h'
    refine ⟨fun _ => ?_, fun _ => rfl⟩
    exact foldChildren_ok_preserves (fun b : ComponentBuilder => b.content_rating)
        languagesStep_cr hc'
  · obtain ⟨c', hc', h⟩ := convBindEqOk h
    have h' := Except.ok.inj h; subst h'
    refine ⟨fun _ => ?_, fun _ => rfl⟩
    exact foldChildren_ok_preserves (fun b : ComponentBuilder => b.content_rating)
        providesStep_cr hc'
  · obtain ⟨_, _, h⟩ := convBindEqOk h
    have h' := Except.ok.inj h; subst h'
    exact ⟨fun _ => rfl, fun _ => rfl⟩
  · obtain ⟨_, _, h⟩ := convBindEqOk h
    have h' := Except.ok.inj h; subst h'
    exact ⟨fun _ => rfl, fun _ => rfl⟩
  · obtain ⟨c', hc', h⟩ := convBindEqOk h
    have h' := Except.ok.inj h; subst h'
    refine ⟨fun _ => ?_, fun _ => rfl⟩
    exact foldChildren_ok_preserves (fun b : ComponentBuilder => b.content_rating)
        suggestsStep_cr hc'
  · obtain ⟨c', hc', h⟩ := convBindEqOk h
    have h' := Except.ok.inj h; subst h'
    refine ⟨fun _ => ?_, fun _ => rfl⟩
    exact foldChildren_ok_preserves (fun b : ComponentBuilder => b.content_rating)
        metadataStep_cr hc'
  · have h' := Except.ok.inj h; subst h'
    exact ⟨fun _ => rfl, fun _ => rfl⟩

/-- The `content_rating` arm stores the converted rating into the builder. -/
theorem componentArm_content_rating (st : ComponentWalkState) (e : Element)
    (st' : ComponentWalkState) (hel : e.name = "content_rating")
    (h : componentArm st e = .ok st') :
    ∃ r, ContentRating.try_from e = .ok r ∧
      st'.component = st.component.setContentRating r := by
  unfold componentArm at h
  simp only [hel] at h
  obtain ⟨r, hr, h⟩ := convBindEqOk h
  have h' := Except.ok.inj h; subst h'
  exact ⟨r, hr, rfl⟩

/-- The last `<content_rating>` child element of a node list. -/
def lastContentRatingChild : List XMLNode → Option Element
  | [] => none
  | .text _ :: rest => lastContentRatingChild rest
  | .element el :: rest =>
    match lastContentRatingChild rest with
    | some x => some x
    | none => if el.name = "content_rating" then some el else none

/-- Walking the children leaves the builder's content-rating field equal to
the conversion of the **last** `<content_rating>` child (or untouched when
there is none). -/
theorem componentWalk_cr : ∀ (l : List XMLNode) (st st' : ComponentWalkState),
    foldChildren componentChildStep st l = .ok st' →
    match lastContentRatingChild l with
    | none => st'.component.content_rating = st.component.content_rating
    | some el => ∃ r, ContentRating.try_from el = .ok r ∧
        st'.component.content_rating = some r := by
  intro l
  induction l with
  | nil =>
    intro st st' h
    have h' := Except.ok.inj h; subst h'
    simp [lastContentRatingChild]
  | cons n rest ih =>
    intro st st' h
    unfold foldChildren at h
    revert h
    cases hstep : componentChildStep st n with
    | error f => intro h; exact Except.noConfusion h
    | ok st1 =>
      intro h
      cases n with
      | text t =>
        have h1 : st = st1 := Except.ok.inj hstep
        subst h1
        simpa only [lastContentRatingChild] using ih st st' h
      | element el =>
        by_cases hel : el.name = "content_rating"
        · obtain ⟨r, hr, hcomp⟩ := componentArm_content_rating st el st1 hel hstep
          have htail := ih st1 st' h
          simp only [lastContentRatingChild]
          cases hlast : lastContentRatingChild rest with
          | none =>
            rw [hlast] at htail
            simp only [hel, if_pos rfl]
            exact ⟨r, hr, by rw [htail, hcomp]; rfl⟩
          | some el2 =>
            rw [hlast] at htail
            exact htail
        · have hpres := (componentArm_cr_name st el st1 hstep).1 hel
          have htail := ih st1 st' h
          simp only [lastContentRatingChild]
          cases hlast : lastContentRatingChild rest with
          | none =>
            rw [hlast] at htail
            simp only [if_neg hel]
            rw [htail, hpres]
          | some el2 =>
            rw [hlast] at htail
            exact htail

/-- Walking children none of which is a `<name>` element leaves the name
aggregate untouched. -/
theorem componentWalk_name : ∀ (l : List XMLNode) (st st' : ComponentWalkState),
    foldChildren componentChildStep st l = .ok st' →
    (∀ el : Element, XMLNode.element el ∈ l → el.name ≠ "name") →
    st'.name = st.name := by
  intro l
  induction l with
  | nil =>
    intro st st' h _
    have h' := Except.ok.inj h; subst h'; rfl
  | cons n rest ih =>
    intro st st' h hno
    unfold foldChildren at h
    revert h
    cases hstep : componentChildStep st n with
    | error f => intro h; exact Except.noConfusion h
    | ok st1 =>
      intro h
      have htail := ih st1 st' h (fun el hm => hno el (List.mem_cons_of_mem _ hm))
      cases n with
      | text t =>
        have h1 : st = st1 := Except.ok.inj hstep
        rw [htail, ← h1]
      | element el =>
        have hpres := (componentArm_cr_name st el st1 hstep).2
          (hno el (List.mem_cons_self _ _))
        rw [htail, hpres]

/-- `setName` keeps the id field. -/
theorem setName_id (b : ComponentBuilder) (n : TranslatableString) :
    (b.setName n).id = b.id := rfl

/-- `setName` keeps the content-rating field. -/
theorem setName_cr (b : ComponentBuilder) (n : TranslatableString) :
    (b.setName n).content_rating = b.content_rating := rfl

/-- `setSummary` keeps name, id and content-rating. -/
theorem setSummary_proj (b : ComponentBuilder) (s : TranslatableString) :
    (b.setSummary s).name = b.name ∧ (b.setSummary s).id = b.id ∧
    (b.setSummary s).content_rating = b.content_rating := by
  unfold ComponentBuilder.setSummary
  split <;> exact ⟨rfl, rfl, rfl⟩

/-- `setKeywords` keeps name, id and content-rating. -/
theorem setKeywords_proj (b : ComponentBuilder) (k : TranslatableList) :
    (b.setKeywords k).name = b.name ∧ (b.setKeywords k).id = b.id ∧
    (b.setKeywords k).content_rating = b.content_rating := by
  unfold ComponentBuilder.setKeywords
  split <;> exact ⟨rfl, rfl, rfl⟩

/-- `setDescription` keeps name, id and content-rating. -/
theorem setDescription_proj (b : ComponentBuilder) (d : MarkupTranslatableString) :
    (b.setDescription d).name = b.name ∧ (b.setDescription d).id = b.id ∧
    (b.setDescription d).content_rating = b.content_rating := by
  unfold ComponentBuilder.setDescription
  split <;> exact ⟨rfl, rfl, rfl⟩

/-- `setDeveloperName` keeps name, id and content-rating. -/
theorem setDeveloperName_proj (b : ComponentBuilder) (d : TranslatableString) :
    (b.setDeveloperName d).name = b.name ∧ (b.setDeveloperName d).id = b.id ∧
    (b.setDeveloperName d).content_rating = b.content_rating := by
  unfold ComponentBuilder.setDeveloperName
  split <;> exact ⟨rfl, rfl, rfl⟩

/-- Finalizing through the builder: the component's name is exactly the
aggregated name (possibly empty), and the content-rating field is carried
over from the walked builder. -/
theorem finalize_build (b : ComponentBuilder) (st : ComponentWalkState)
    (a : AppId) (c : Component)
    (h : ((((((b.setName st.name).setSummary st.summary).setKeywords
      st.keywords).setDescription st.description).setDeveloperName
      st.developer_name).setId a).build = .ok c) :
    c.name = st.name ∧ c.content_rating = b.content_rating := by
  have hname : ((((((b.setName st.name).setSummary st.summary).setKeywords
      st.keywords).setDescription st.description).setDeveloperName
      st.developer_name).setId a).name = some st.name := by
    show ((((((b.setName st.name).setSummary st.summary).setKeywords
      st.keywords).setDescription st.description).setDeveloperName
      st.developer_name)).name = some st.name
    rw [(setDeveloperName_proj _ _).1, (setDescription_proj _ _).1,
      (setKeywords_proj _ _).1, (setSummary_proj _ _).1]
    rfl
  have hcr : ((((((b.setName st.name).setSummary st.summary).setKeywords
      st.keywords).setDescription st.description).setDeveloperName
      st.developer_name).setId a).content_rating = b.content_rating := by
    show ((((((b.setName st.name).setSummary st.summary).setKeywords
      st.keywords).setDescription st.description).setDeveloperName
      st.developer_name)).content_rating = b.content_rating
    rw [(setDeveloperName_proj _ _).2.2, (setDescription_proj _ _).2.2,
      (setKeywords_proj _ _).2.2, (setSummary_proj _ _).2.2]
    rfl
  unfold ComponentBuilder.build at h
  rw [hname] at h
  simp only [expectOp, convBindOk, convPure] at h
  have h' := Except.ok.inj h
  subst h'
  exact ⟨rfl, hcr⟩

/-- The `type`-attribute block of the component converter keeps the
content-rating field. -/
theorem componentApplyKind_cr (e : Element) (b b' : ComponentBuilder)
    (h : componentApplyKind e b = .ok b') :
    b'.content_rating = b.content_rating := by
  unfold componentApplyKind at h
  split at h
  · split at h
    · have h' := Except.ok.inj h; subst h'; rfl
    · exact Except.noConfusion h
  · have h' := Except.ok.inj h; subst h'; rfl

/-- C1 amended: `Component::try_from` retains the conversion of the **last**
`<content_rating>` child in document order (the builder's setter plainly
overwrites the field on every occurrence); with no such child the field is
empty. -/
theorem C1_amended (e : Element) (c : Component)
    (h : Component.try_from e = .ok c) :
    match lastContentRatingChild e.children with
    | none => c.content_rating = none
    | some el => ∃ r, ContentRating.try_from el = .ok r ∧
        c.content_rating = some r := by
  unfold Component.try_from at h
  obtain ⟨b0, hb0, h⟩ := convBindEqOk h
  obtain ⟨idEl, _, h⟩ := convBindEqOk h
  obtain ⟨app_id, _, h⟩ := convBindEqOk h
  obtain ⟨st, hst, h⟩ := convBindEqOk h
  have hfin := finalize_build st.component st app_id c h
  have hb0cr : b0.content_rating = none := componentApplyKind_cr e _ b0 hb0
  have hwalk := componentWalk_cr e.children _ _ hst
  cases hlast : lastContentRatingChild e.children with
  | none =>
    rw [hlast] at hwalk
    rw [hfin.2, hwalk, hb0cr]
  | some el =>
    rw [hlast] at hwalk
    obtain ⟨r, hr, hcr⟩ := hwalk
    exact ⟨r, hr, by rw [hfin.2, hcr]⟩

/-- A `<component>` with an `<id>` and two `<content_rating>` children, the
oars-1.1 one first and the oars-1.0 one second. -/
def c1ex : Element :=
  .mk "component" []
    [.element (.mk "id" [] [.text "org.example.App"]),
     .element (.mk "content_rating" [("type", "oars-1.1")] []),
     .element (.mk "content_rating" [("type", "oars-1.0")] [])]

/-- The component parsed from `c1ex`: the **oars-1.0** entry is retained. -/
def c1comp : Component :=
  { kind := .Generic, id := ⟨"org.example.App"⟩,
    name := TranslatableString.default, requires := [], recommends := [],
    supports := [], summary := none, description := none,
    project_license := none, metadata_license := none, project_group := none,
    compulsory_for_desktop := none, «extends» := [], icons := [],
    screenshots := [], urls := [], developer_name := none,
    update_contact := none, categories := [], launchables := [],
    pkgname := none, bundles := [], releases := [], languages := [],
    mimetypes := [], kudos := [], keywords := none,
    content_rating := some ⟨.Oars1_0, []⟩, provides := [], translations := [],
    source_pkgname := none, suggestions := [], metadata := [] }

/-- C1 counterexample: with the oars-1.1 rating first and the oars-1.0
rating second in document order, the component retains the **oars-1.0**
entry — not the highest version, contradicting the claim's "in either
document order". -/
theorem C1_counterexample :
    Component.try_from c1ex = .ok c1comp ∧
    c1comp.content_rating = some ⟨.Oars1_0, []⟩ ∧
    ContentRatingVersion.Oars1_0 ≠ ContentRatingVersion.Oars1_1 :=
  ⟨rfl, rfl, by decide⟩

/-- C1 amended, witness: on `c1ex` the last `<content_rating>` child is the
oars-1.0 one, and it is exactly what the component retains. -/
theorem C1_amended_witness :
    Component.try_from c1ex = .ok c1comp ∧
    c1comp.content_rating = some ⟨.Oars1_0, []⟩ := by
  refine ⟨rfl, ?_⟩
  have h := C1_amended c1ex c1comp rfl
  rw [show lastContentRatingChild c1ex.children =
    some (.mk "content_rating" [("type", "oars-1.0")] []) from rfl] at h
  obtain ⟨r, hr, hcr⟩ := h
  have heval : ContentRating.try_from
      (Element.mk "content_rating" [("type", "oars-1.0")] []) =
      .ok ⟨.Oars1_0, []⟩ := rfl
  rw [heval] at hr
  rw [hcr, (Except.ok.inj hr).symm]

/-! ## C3 — a component with `<id>` but no `<name>` -/

/-- A `<component>` with only an `<id>` child. -/
def c3ex : Element :=
  .mk "component" [] [.element (.mk "id" [] [.text "org.example.App"])]

/-- The component parsed from `c3ex`: conversion **succeeds**, with an empty
name map. -/
def c3comp : Component :=
  { kind := .Generic, id := ⟨"org.example.App"⟩,
    name := TranslatableString.default, requires := [], recommends := [],
    supports := [], summary := none, description := none,
    project_license := none, metadata_license := none, project_group := none,
    compulsory_for_desktop := none, «extends» := [], icons := [],
    screenshots := [], urls := [], developer_name := none,
    update_contact := none, categories := [], launchables := [],
    pkgname := none, bundles := [], releases := [], languages := [],
    mimetypes := [], kudos := [], keywords := none, content_rating := none,
    provides := [], translations := [], source_pkgname := none,
    suggestions := [], metadata := [] }

/-- C3 counterexample: a `<component>` with an `<id>` child and no `<name>`
child converts **successfully** — `Component::try_from` does not fail. -/
theorem C3_counterexample :
    c3ex.getChild "id" = some (.mk "id" [] [.text "org.example.App"]) ∧
    c3ex.getChild "name" = none ∧
    Component.try_from c3ex = .ok c3comp :=
  ⟨rfl, rfl, rfl⟩

/-- C3 amended: finalization never fails because of a missing `<name>`:
the converter always hands the builder the (possibly empty) name aggregate,
so for every component that converts successfully and has no `<name>`
children, the resulting name map is simply empty. (A missing `<id>` is still
fatal, reported as `MissingTag("id")` before the walk.) -/
theorem C3_amended (e : Element) (c : Component)
    (h : Component.try_from e = .ok c)
    (hno : ∀ el : Element, XMLNode.element el ∈ e.children → el.name ≠ "name") :
    c.name = TranslatableString.default := by
  unfold Component.try_from at h
  obtain ⟨b0, hb0, h⟩ := convBindEqOk h
  obtain ⟨idEl, _, h⟩ := convBindEqOk h
  obtain ⟨app_id, _, h⟩ := convBindEqOk h
  obtain ⟨st, hst, h⟩ := convBindEqOk h
  have hfin := finalize_build st.component st app_id c h
  have hw := componentWalk_name e.children _ _ hst hno
  rw [hfin.1, hw]

/-- C3 amended, witness: applied to the id-only component. -/
theorem C3_amended_witness :
    Component.try_from c3ex = .ok c3comp ∧
    c3comp.name = TranslatableString.default :=
  ⟨rfl, C3_amended c3ex c3comp rfl (by
    intro el hmem
    simp only [c3ex, Element.children, List.mem_singleton,
      XMLNode.element.injEq] at hmem
    subst hmem
    decide)⟩

end Appstream
